import Mathlib

/-!
Verification development for the PDF question-answering backend
(`src/backend/server.js`).

The backend is an Express application over four MongoDB collections.  This file
embeds the one-time-passcode (OTP) helpers `createOtpRecord` / `verifyOtp` and the
four authentication routes (`/api/register/start`, `/api/register/verify`,
`/api/login/start`, `/api/login/verify`), then `authMiddleware` and the document
routes (`/api/upload-pdf`, `/api/my-pdfs`, `/api/ask`), as pure state-passing
functions, and proves properties of them.

Modelling conventions.

* A collection is the list of its documents in insertion order together with the
  counter from which the next `_id` is drawn (`new Model(...)` always produces a
  fresh `ObjectId`).  `findOne` is the first match, `deleteOne` /
  `findOneAndDelete` remove the first match, `save` appends.
* A `Date` is its number of milliseconds since the epoch, a natural number.
* `Date.now()` / `new Date()` and the value of
  `Math.floor(100000 + Math.random() * 900000)` are inputs of the call that reads
  them; `otpDraw` computes the latter from the value of `Math.random()`, a
  binary64 number represented by the rational it denotes.
* A field of a JSON request body is an `Option String`; `none` is an absent field.
  The guard `!x` of the routes rejects an absent field and the empty string.
* Requests are handled one after the other (a sequential interleaving).
* Database operations succeed, apart from the refusals that depend on the data:
  the unique index on `User.email` (line 67), checked by `save`, and, in the ask
  route, the cast of `pdfId` to an object identifier by `findOne` and the cast of
  the answer to a string by `save`.  In the ask route whatever is thrown (by these
  casts, by `fetch`, by reading or parsing the reply) reaches the `catch` that
  answers `server_error`.
* The TTL index on `expiresAt` (line 77) lets MongoDB remove expired challenges in
  the background; that removal is not part of the model, where only the two OTP
  helpers change the challenge store.
* `sendOtpEmail` is called inside a `try`/`catch` whose handler only logs; its
  outcome influences neither the stored data nor the returned code, so it does not
  appear in the state.
-/

namespace Server

/-! ## Data model (lines 65-96) -/

/-- Milliseconds since the epoch. -/
abbrev Time := Nat

/-- A MongoDB object identifier. -/
abbrev ObjectId := Nat

/-- A document of `UserSchema` (lines 65-70). -/
structure User where
  _id : ObjectId
  name : String
  email : String
  phone : String
  isVerified : Bool
deriving DecidableEq, Repr

/-- A document of `OTPTempSchema` (lines 71-76). -/
structure OTPTemp where
  _id : ObjectId
  email : String
  otp : String
  purpose : String
  expiresAt : Time
deriving DecidableEq, Repr

/-- The `OTPTemp` collection. -/
structure OtpStore where
  docs : List OTPTemp
  nextId : ObjectId
deriving DecidableEq, Repr

/-- The `User` collection. -/
structure UserStore where
  docs : List User
  nextId : ObjectId
deriving DecidableEq, Repr

/-- The part of the database the authentication routes read and write. -/
structure Db where
  users : UserStore
  otps : OtpStore
deriving DecidableEq, Repr

/-- The empty challenge store. -/
def OtpStore.empty : OtpStore := { docs := [], nextId := 0 }

/-- The empty identity registry. -/
def UserStore.empty : UserStore := { docs := [], nextId := 0 }

/-- The empty database. -/
def Db.empty : Db := { users := UserStore.empty, otps := OtpStore.empty }

/-! ## OTP helpers (lines 130-151) -/

/-- The query `{ email, purpose }` on the `OTPTemp` collection. -/
def otpQuery (email purpose : String) (r : OTPTemp) : Bool :=
  r.email == email && r.purpose == purpose

/-- The query `{ _id: rec._id }` on the `OTPTemp` collection. -/
def otpIdQuery (id : ObjectId) (r : OTPTemp) : Bool :=
  r._id == id

/-- The function `createOtpRecord(email, purpose)` (lines 130-142).  `now` is the
value of `Date.now()` and `draw` the value of
`Math.floor(100000 + Math.random() * 900000)`.  Returns the code and the new
store. -/
def createOtpRecord (st : OtpStore) (email purpose : String) (now : Time) (draw : Nat) :
    String × OtpStore :=
  let otp := toString draw
  let expiresAt := now + 10 * 60 * 1000
  -- `OTPTemp.findOneAndDelete({ email, purpose })`
  let docs := st.docs.eraseP (otpQuery email purpose)
  let record : OTPTemp :=
    { _id := st.nextId, email := email, otp := otp, purpose := purpose, expiresAt := expiresAt }
  -- `rec.save()` (the document `rec` is called `record` here)
  (otp, { docs := docs ++ [record], nextId := st.nextId + 1 })

/-- The object returned by `verifyOtp`: `{ ok: true }` or `{ ok: false, reason }`. -/
structure VerifyResult where
  ok : Bool
  reason : Option String
deriving DecidableEq, Repr

/-- The function `verifyOtp(email, otp, purpose)` (lines 144-151).  `now` is the
value of `new Date()`. -/
def verifyOtp (st : OtpStore) (email otp purpose : String) (now : Time) :
    VerifyResult × OtpStore :=
  match st.docs.find? (otpQuery email purpose) with
  | none => ({ ok := false, reason := some "no_otp" }, st)
  | some record =>
    if record.expiresAt < now then
      ({ ok := false, reason := some "expired" },
        { st with docs := st.docs.eraseP (otpIdQuery record._id) })
    else if record.otp != otp then
      ({ ok := false, reason := some "wrong" }, st)
    else
      ({ ok := true, reason := none },
        { st with docs := st.docs.eraseP (otpIdQuery record._id) })

/-- A call of one of the two OTP helpers, with the values it reads from the
environment. -/
inductive OtpCall where
  | create (email purpose : String) (now : Time) (draw : Nat)
  | verify (email otp purpose : String) (now : Time)
deriving DecidableEq, Repr

/-- The store after one helper call. -/
def OtpCall.apply (st : OtpStore) : OtpCall → OtpStore
  | .create email purpose now draw => (createOtpRecord st email purpose now draw).2
  | .verify email otp purpose now => (verifyOtp st email otp purpose now).2

/-- The store after a sequence of helper calls. -/
def runOtpCalls (st : OtpStore) (calls : List OtpCall) : OtpStore :=
  calls.foldl OtpCall.apply st

/-- Challenge-store states reachable from the empty store by calls of
`createOtpRecord` and `verifyOtp`. -/
def OtpReachable (st : OtpStore) : Prop :=
  ∃ calls : List OtpCall, runOtpCalls OtpStore.empty calls = st

/-- The number of stored challenges for a pair `(email, purpose)`. -/
def challengeCount (st : OtpStore) (email purpose : String) : Nat :=
  (st.docs.filter (otpQuery email purpose)).length

/-- Whether a helper call issues a challenge for the pair `(email, purpose)`. -/
def OtpCall.issues (email purpose : String) : OtpCall → Bool
  | .create e p _ _ => e == email && p == purpose
  | .verify .. => false

/-- The invariant of the challenge store: identifiers are below the counter and
pairwise distinct, and no pair `(email, purpose)` has two stored challenges. -/
structure OtpInv (st : OtpStore) : Prop where
  idsLt : ∀ r ∈ st.docs, r._id < st.nextId
  idsNodup : (st.docs.map (fun r => r._id)).Nodup
  single : ∀ email purpose : String, st.docs.countP (otpQuery email purpose) ≤ 1

/-! ## Routes (lines 187-261) -/

/-- The values the guard `!x` lets through: a present, non-empty string. -/
def truthy : Option String → Option String
  | none => none
  | some s => if s = "" then none else some s

/-- The summary `{ id, name, email }` returned by the verify routes. -/
structure UserSummary where
  id : ObjectId
  name : String
  email : String
deriving DecidableEq, Repr

/-- The arguments of `jwt.sign({ userId }, JWT_SECRET, { expiresIn: '7d' })`: the
payload and the lifetime in seconds.  The signature is not modelled. -/
structure Token where
  userId : ObjectId
  expiresIn : Nat
deriving DecidableEq, Repr

/-- An HTTP response: status, the fields of the JSON body and the `token`
cookie when one is set. -/
structure Response where
  status : Nat
  ok : Bool
  error : Option String
  msg : Option String
  user : Option UserSummary
  cookie : Option Token
deriving DecidableEq, Repr

/-- The response `res.status(status).json({ ok: false, error })`. -/
def errorResponse (status : Nat) (error : Option String) : Response :=
  { status := status, ok := false, error := error, msg := none, user := none, cookie := none }

/-- The response `res.json({ ok: true, msg: 'otp_sent' })`. -/
def otpSentResponse : Response :=
  { status := 200, ok := true, error := none, msg := some "otp_sent", user := none,
    cookie := none }

/-- The response of a successful verify route: the cookie and the summary. -/
def sessionResponse (u : User) : Response :=
  { status := 200, ok := true, error := none, msg := none,
    user := some { id := u._id, name := u.name, email := u.email },
    cookie := some { userId := u._id, expiresIn := 7 * 24 * 60 * 60 } }

/-- The query `User.findOne({ email })`. -/
def findUserByEmail (us : UserStore) (email : String) : Option User :=
  us.docs.find? (fun u => u.email == email)

/-- The query `User.findOne({ phone })`. -/
def findUserByPhone (us : UserStore) (phone : String) : Option User :=
  us.docs.find? (fun u => u.phone == phone)

/-- The call `user.save()` on the `User` collection, whose `email` path carries a
unique index (line 67): the insert is refused when the email is present. -/
def UserStore.save (us : UserStore) (u : User) : Option UserStore :=
  if us.docs.any (fun x => x.email == u.email) then none
  else some { docs := us.docs ++ [u], nextId := us.nextId + 1 }

/-- The route `POST /api/register/start` (lines 187-201). -/
def registerStart (db : Db) (name email phone : Option String) (now : Time) (draw : Nat) :
    Response × Db :=
  match truthy name, truthy email, truthy phone with
  | some _, some email, some phone =>
    if (findUserByEmail db.users email).isSome then
      (errorResponse 400 (some "email_exists"), db)
    else if (findUserByPhone db.users phone).isSome then
      (errorResponse 400 (some "phone_exists"), db)
    else
      (otpSentResponse, { db with otps := (createOtpRecord db.otps email "register" now draw).2 })
  | _, _, _ => (errorResponse 400 (some "missing_fields"), db)

/-- The route `POST /api/register/verify` (lines 204-225). -/
def registerVerify (db : Db) (name email phone otp : Option String) (now : Time) :
    Response × Db :=
  match truthy name, truthy email, truthy phone, truthy otp with
  | some name, some email, some phone, some otp =>
    let v := verifyOtp db.otps email otp "register" now
    let db1 : Db := { db with otps := v.2 }
    if !v.1.ok then (errorResponse 400 v.1.reason, db1)
    else if (findUserByEmail db1.users email).isSome then
      (errorResponse 400 (some "email_exists"), db1)
    else
      let user : User :=
        { _id := db1.users.nextId, name := name, email := email, phone := phone,
          isVerified := true }
      match db1.users.save user with
      | none => (errorResponse 500 (some "server_error"), db1)
      | some users => (sessionResponse user, { db1 with users := users })
  | _, _, _, _ => (errorResponse 400 (some "missing_fields"), db)

/-- The route `POST /api/login/start` (lines 228-240). -/
def loginStart (db : Db) (email : Option String) (now : Time) (draw : Nat) : Response × Db :=
  match truthy email with
  | none => (errorResponse 400 (some "missing_email"), db)
  | some email =>
    match findUserByEmail db.users email with
    | none => (errorResponse 400 (some "not_registered"), db)
    | some _ =>
      (otpSentResponse, { db with otps := (createOtpRecord db.otps email "login" now draw).2 })

/-- The route `POST /api/login/verify` (lines 243-261). -/
def loginVerify (db : Db) (email otp : Option String) (now : Time) : Response × Db :=
  match truthy email, truthy otp with
  | some email, some otp =>
    let v := verifyOtp db.otps email otp "login" now
    let db1 : Db := { db with otps := v.2 }
    if !v.1.ok then (errorResponse 400 v.1.reason, db1)
    else
      match findUserByEmail db1.users email with
      | none => (errorResponse 400 (some "not_registered"), db1)
      | some user => (sessionResponse user, db1)
  | _, _ => (errorResponse 400 (some "missing_fields"), db)

/-- A request to one of the four authentication routes, with the values the
handler reads from the environment. -/
inductive Request where
  | registerStart (name email phone : Option String) (now : Time) (draw : Nat)
  | registerVerify (name email phone otp : Option String) (now : Time)
  | loginStart (email : Option String) (now : Time) (draw : Nat)
  | loginVerify (email otp : Option String) (now : Time)
deriving DecidableEq, Repr

/-- The response and the database after one request. -/
def handle (db : Db) : Request → Response × Db
  | .registerStart name email phone now draw => registerStart db name email phone now draw
  | .registerVerify name email phone otp now => registerVerify db name email phone otp now
  | .loginStart email now draw => loginStart db email now draw
  | .loginVerify email otp now => loginVerify db email otp now

/-- The database after a sequence of requests handled one after the other. -/
def runRequests (db : Db) (reqs : List Request) : Db :=
  reqs.foldl (fun d r => (handle d r).2) db

/-- Database states reachable from the empty database by requests to the four
authentication routes. -/
def Reachable (db : Db) : Prop :=
  ∃ reqs : List Request, runRequests Db.empty reqs = db

/-- The invariant of the database: the challenge store satisfies its invariant,
no two identities share an email, and identity identifiers are below the counter
and pairwise distinct. -/
structure DbInv (db : Db) : Prop where
  otpInv : OtpInv db.otps
  emailsNodup : (db.users.docs.map (fun u => u.email)).Nodup
  userIdsLt : ∀ u ∈ db.users.docs, u._id < db.users.nextId
  userIdsNodup : (db.users.docs.map (fun u => u._id)).Nodup

/-- Whether a request is to one of the two registration routes. -/
def Request.isRegistration : Request → Bool
  | .registerStart .. => true
  | .registerVerify .. => true
  | _ => false

/-! ## Session validation (lines 154-164) -/

/-- The ways in which `jwt.verify(token, JWT_SECRET)` throws. -/
inductive JwtError where
  | malformed
  | expired
  | misSigned
deriving DecidableEq, Repr

/-- What `authMiddleware` does with a request: it calls `next()` after setting
`req.userId`, or it answers itself. -/
inductive AuthOutcome where
  | next (userId : ObjectId)
  | reject (res : Response)
deriving DecidableEq, Repr

/-- The function `authMiddleware` (lines 154-164).  `token` is the value of
`req.cookies && req.cookies.token`; `jwtVerify` is `jwt.verify(., JWT_SECRET)` of
the `jsonwebtoken` library, which returns the payload (here its `userId`) or
throws. -/
def authMiddleware (jwtVerify : String → Except JwtError ObjectId) (token : Option String) :
    AuthOutcome :=
  match truthy token with
  | none => .reject (errorResponse 401 (some "unauthenticated"))
  | some token =>
    match jwtVerify token with
    | .ok userId => .next userId
    | .error _ => .reject (errorResponse 401 (some "invalid_token"))

/-! ## Documents and conversations (lines 78-91, 270-358) -/

/-- A JavaScript string as the sequence of its UTF-16 code units, the units in
which `length` and `slice` count.  Used for document text. -/
abbrev JsText := List Nat

/-- A document of `PDFSchema` (lines 78-84).  `text` is `none` when the field is
not there (as in the items of a listing selected with `-text`). -/
structure PDF where
  _id : ObjectId
  userId : ObjectId
  filename : String
  originalName : String
  text : Option JsText
  uploadedAt : Time
deriving DecidableEq, Repr

/-- A document of `ConversationSchema` (lines 85-91). -/
structure Conversation where
  _id : ObjectId
  userId : ObjectId
  pdfId : ObjectId
  question : String
  answer : String
  createdAt : Time
deriving DecidableEq, Repr

/-- The `PDF` collection. -/
structure PdfStore where
  docs : List PDF
  nextId : ObjectId
deriving DecidableEq, Repr

/-- The `Conversation` collection. -/
structure ConvStore where
  docs : List Conversation
  nextId : ObjectId
deriving DecidableEq, Repr

/-- The state the document routes read and write: the two collections and the
paths of the files present in the directory `uploads/`. -/
structure DocDb where
  pdfs : PdfStore
  convs : ConvStore
  uploads : List String
deriving DecidableEq, Repr

/-- The empty document state. -/
def DocDb.empty : DocDb :=
  { pdfs := { docs := [], nextId := 0 }, convs := { docs := [], nextId := 0 }, uploads := [] }

/-- The object `req.file` that `upload.single('pdf')` leaves for an accepted upload. -/
structure UploadedFile where
  path : String
  filename : String
  originalname : String
deriving DecidableEq, Repr

/-- The outcome of `await pdfParse(dataBuffer)`: it throws, or it returns `pdfData`,
which may be null (`none`) and whose `text` may be missing (`some none`). -/
inductive ParseOutcome where
  | throws
  | returns (pdfData : Option (Option JsText))
deriving DecidableEq, Repr

/-- The response of the upload route; `pdf` is the pair `{ id, name }`. -/
structure UploadResponse where
  status : Nat
  ok : Bool
  error : Option String
  pdf : Option (ObjectId × String)
deriving DecidableEq, Repr

/-- The expression `(pdfData && pdfData.text) ? pdfData.text : ''` (line 275). -/
def extractedText : Option (Option JsText) → JsText
  | some (some t) => t
  | _ => []

/-- The route `POST /api/upload-pdf` (lines 270-292) behind `authMiddleware`:
`userId` is `req.userId`, `file` is `req.file`, `parsed` the outcome of `pdfParse`
and `now` the value of `Date.now` taken for `uploadedAt`. -/
def uploadPdf (db : DocDb) (userId : ObjectId) (file : Option UploadedFile)
    (parsed : ParseOutcome) (now : Time) : UploadResponse × DocDb :=
  match file with
  | none => ({ status := 400, ok := false, error := some "no_file", pdf := none }, db)
  | some file =>
    match parsed with
    | .throws => ({ status := 500, ok := false, error := some "server_error", pdf := none }, db)
    | .returns pdfData =>
      let text := extractedText pdfData
      let pdfRecord : PDF :=
        { _id := db.pdfs.nextId, userId := userId, filename := file.filename,
          originalName := file.originalname, text := some text, uploadedAt := now }
      -- `pdfRecord.save()`, then `fs.unlinkSync(req.file.path)`
      ({ status := 200, ok := true, error := none,
         pdf := some (pdfRecord._id, pdfRecord.originalName) },
        { db with
          pdfs := { docs := db.pdfs.docs ++ [pdfRecord], nextId := db.pdfs.nextId + 1 },
          uploads := db.uploads.filter (fun f => f != file.path) })

/-- The query `.select('-text')`: the document without its `text` field. -/
def selectMinusText (d : PDF) : PDF := { d with text := none }

/-- The order of `.sort({ uploadedAt: -1 })`: later uploads first. -/
def newerFirst (a b : PDF) : Prop := b.uploadedAt ≤ a.uploadedAt

instance newerFirstDecidable : DecidableRel newerFirst :=
  fun a b => inferInstanceAs (Decidable (b.uploadedAt ≤ a.uploadedAt))

/-- The route `GET /api/my-pdfs` (lines 295-303) behind `authMiddleware`: the list
`pdfs` of the response.  The route changes no state. -/
def myPdfs (db : DocDb) (userId : ObjectId) : List PDF :=
  (List.insertionSort newerFirst
    (db.pdfs.docs.filter (fun d => d.userId == userId))).map selectMinusText

/-- The white space and line terminator code points that `String.prototype.trim`
removes. -/
def isJsWhiteSpace (c : Char) : Bool :=
  let n := c.toNat
  n == 0x09 || n == 0x0A || n == 0x0B || n == 0x0C || n == 0x0D || n == 0x20 || n == 0xA0 ||
  n == 0x1680 || (0x2000 ≤ n && n ≤ 0x200A) || n == 0x2028 || n == 0x2029 || n == 0x202F ||
  n == 0x205F || n == 0x3000 || n == 0xFEFF

/-- The test `question.trim() === ''`: every character is white space. -/
def isBlank (question : String) : Bool :=
  question.data.all isJsWhiteSpace

/-- The object `payload.inputs` sent to the inference endpoint (lines 319-324). -/
structure HfPayload where
  question : String
  context : JsText
deriving DecidableEq, Repr

/-- A JavaScript value as far as the ask route looks at it: `undefined`, `null`,
a string, or any other value (a boolean, a number, an array, an object) with its
truthiness. -/
inductive JsValue where
  | undefined
  | null
  | str (s : String)
  | other (truthy : Bool)
deriving DecidableEq, Repr

/-- Whether a value is truthy, as the operator `||` tests it. -/
def JsValue.truthy : JsValue → Bool
  | .str s => s != ""
  | .other t => t
  | _ => false

/-- The outcome of `await hfResp.json()`: it throws when the body is not JSON;
otherwise the parsed value `hfJson` is `null`, on which reading `.answer` throws,
or another value, given by the value of its property `answer` (`undefined` when it
has none). -/
inductive HfJson where
  | notJson
  | null
  | value (answer : JsValue)
deriving DecidableEq, Repr

/-- The body of the reply: reading it fails, or it is a text, given with the
outcome of parsing that text as JSON. -/
inductive HfBody where
  | unreadable
  | readable (text : String) (json : HfJson)
deriving DecidableEq, Repr

/-- The reply `hfResp` of the inference endpoint: the HTTP status and the body. -/
structure HfResponse where
  status : Nat
  body : HfBody
deriving DecidableEq, Repr

/-- The property `hfResp.ok` of `node-fetch`: the status is in the range 200-299. -/
def HfResponse.ok (r : HfResponse) : Bool :=
  200 ≤ r.status && r.status ≤ 299

/-- The outcome of `await fetch(hfUrl, ...)`: the promise is rejected (the endpoint
cannot be reached) or resolves to a reply. -/
inductive FetchOutcome where
  | rejected
  | resolved (hfResp : HfResponse)
deriving DecidableEq, Repr

/-- What the ask route takes from outside the repository: the cast of a string to
an object identifier done by `findOne` (`none` when Mongoose throws a `CastError`),
the cast of a value that is not a string to the `String` path `answer` done by
`conv.save()` (`none` when validation fails), and the inference endpoint reached by
`fetch`. -/
structure AskEnv where
  castObjectId : String → Option ObjectId
  castString : JsValue → Option String
  gateway : HfPayload → FetchOutcome

/-- The string stored in the path `answer` for a value: a string is stored as it
is, another value through the cast of Mongoose. -/
def storedAnswer (env : AskEnv) : JsValue → Option String
  | .str s => some s
  | v => env.castString v

/-- The value of a hexadecimal digit. -/
def hexDigitValue (c : Char) : Option Nat :=
  if '0' ≤ c ∧ c ≤ '9' then some (c.toNat - '0'.toNat)
  else if 'a' ≤ c ∧ c ≤ 'f' then some (c.toNat - 'a'.toNat + 10)
  else if 'A' ≤ c ∧ c ≤ 'F' then some (c.toNat - 'A'.toNat + 10)
  else none

/-- An instance of the cast to an object identifier, used in the examples: a
string of 24 hexadecimal digits is the identifier it writes, any other string is
refused. -/
def hexObjectId (s : String) : Option ObjectId :=
  if s.length = 24 then
    s.data.foldl
      (fun acc c =>
        match acc, hexDigitValue c with
        | some a, some d => some (16 * a + d)
        | _, _ => none)
      (some 0)
  else none

/-- The response of the ask route. -/
structure AskResponse where
  status : Nat
  ok : Bool
  error : Option String
  details : Option String
  answer : Option JsValue
  convId : Option ObjectId
deriving DecidableEq, Repr

/-- The response `res.status(status).json(\x7b ok: false, error \x7d)` of the ask route. -/
def askError (status : Nat) (error : String) : AskResponse :=
  { status := status, ok := false, error := some error, details := none, answer := none,
    convId := none }

/-- What a call of the ask route produces: the response, the new state and the
payloads sent to the inference endpoint, in order. -/
structure AskResult where
  response : AskResponse
  db : DocDb
  calls : List HfPayload
deriving DecidableEq, Repr

/-- The query `PDFModel.findOne(\x7b _id: pdfId, userId: req.userId \x7d)`, once
`pdfId` is cast. -/
def findPdf (ps : PdfStore) (pdfId userId : ObjectId) : Option PDF :=
  ps.docs.find? (fun d => d._id == pdfId && d.userId == userId)

/-- The route `POST /api/ask` (lines 306-358) behind `authMiddleware`.  `userId`
is `req.userId`, `pdfId` and `question` are the fields of the body and `now` is
the value of `Date.now` taken for `createdAt`.  Whatever is thrown inside the
`try` block is answered by the `catch` of lines 354-357 with `server_error`. -/
def ask (env : AskEnv) (db : DocDb) (userId : ObjectId)
    (pdfId question : Option String) (now : Time) : AskResult :=
  match truthy pdfId with
  | none => { response := askError 400 "missing_pdfId", db := db, calls := [] }
  | some pdfId =>
    match truthy question with
    | none => { response := askError 400 "missing_question", db := db, calls := [] }
    | some question =>
      if isBlank question then
        { response := askError 400 "missing_question", db := db, calls := [] }
      else
        -- `PDFModel.findOne` casts `pdfId` and throws when it is ill-formed
        match env.castObjectId pdfId with
        | none => { response := askError 500 "server_error", db := db, calls := [] }
        | some id =>
          match findPdf db.pdfs id userId with
          | none => { response := askError 404 "pdf_not_found", db := db, calls := [] }
          | some pdf =>
            let contextText := (pdf.text.getD []).take 30000
            let payload : HfPayload := { question := question, context := contextText }
            match env.gateway payload with
            | .rejected =>
              { response := askError 500 "server_error", db := db, calls := [payload] }
            | .resolved hfResp =>
              if !hfResp.ok then
                match hfResp.body with
                | .unreadable =>
                  { response := askError 500 "server_error", db := db, calls := [payload] }
                | .readable txt _ =>
                  { response :=
                      { status := 500, ok := false, error := some "llm_error",
                        details := some txt, answer := none, convId := none },
                    db := db, calls := [payload] }
              else
                match hfResp.body with
                | .readable _ (.value hfAnswer) =>
                  let answer : JsValue :=
                    if hfAnswer.truthy then hfAnswer
                    else .str "Sorry, I couldn't find an answer."
                  -- `new Conversation(...)` and `conv.save()`
                  match storedAnswer env answer with
                  | none =>
                    { response := askError 500 "server_error", db := db, calls := [payload] }
                  | some stored =>
                    let conv : Conversation :=
                      { _id := db.convs.nextId, userId := userId, pdfId := pdf._id,
                        question := question, answer := stored, createdAt := now }
                    { response :=
                        { status := 200, ok := true, error := none, details := none,
                          answer := some answer, convId := some conv._id },
                      db := { db with
                        convs :=
                          { docs := db.convs.docs ++ [conv],
                            nextId := db.convs.nextId + 1 } },
                      calls := [payload] }
                | _ => { response := askError 500 "server_error", db := db, calls := [payload] }

/-- A request to one of the two document routes that change state, with the
values the handler reads from the environment. -/
inductive DocRequest where
  | upload (userId : ObjectId) (file : Option UploadedFile) (parsed : ParseOutcome)
      (now : Time)
  | ask (userId : ObjectId) (pdfId question : Option String) (now : Time)
deriving DecidableEq, Repr

/-- The document state after one request. -/
def DocRequest.apply (env : AskEnv) (db : DocDb) : DocRequest → DocDb
  | .upload userId file parsed now => (uploadPdf db userId file parsed now).2
  | .ask userId pdfId question now => (Server.ask env db userId pdfId question now).db

/-- The document state after a sequence of requests handled one after the other. -/
def runDocRequests (env : AskEnv) (db : DocDb) (reqs : List DocRequest) : DocDb :=
  reqs.foldl (DocRequest.apply env) db

/-- Document states reachable from the empty one by uploads and questions. -/
def DocReachable (db : DocDb) : Prop :=
  ∃ (env : AskEnv) (reqs : List DocRequest), runDocRequests env DocDb.empty reqs = db

/-- The invariant of the `PDF` collection: identifiers are below the counter and
pairwise distinct. -/
structure PdfInv (ps : PdfStore) : Prop where
  idsLt : ∀ d ∈ ps.docs, d._id < ps.nextId
  idsNodup : (ps.docs.map (fun d => d._id)).Nodup

/-! ## The random code (line 131) -/

/-- The nearest integer to `q`, the even one in a tie. -/
def roundHalfEven (q : ℚ) : ℤ :=
  if q - ⌊q⌋ < 1 / 2 then ⌊q⌋
  else if 1 / 2 < q - ⌊q⌋ then ⌊q⌋ + 1
  else if ⌊q⌋ % 2 = 0 then ⌊q⌋ else ⌊q⌋ + 1

/-- The exponent of the unit in the last place of the binary64 format at a
non-negative `x`: 52 below the binary exponent of `x`, and -1074 for subnormal
`x`. -/
def ulpExponent (x : ℚ) : ℤ := max (Int.log 2 x - 52) (-1074)

/-- The binary64 number a JavaScript arithmetic operation returns when its exact
result is the non-negative `x` (below the overflow threshold): `x` rounded to the
nearest multiple of the unit in the last place, ties to even. -/
def roundToDouble (x : ℚ) : ℚ :=
  roundHalfEven (x / 2 ^ ulpExponent x) * 2 ^ ulpExponent x

/-- The finite non-negative binary64 numbers: `m * 2 ^ e` with a significand
`m < 2 ^ 53` and an exponent `e` from -1074 to 971. -/
def IsDouble (x : ℚ) : Prop :=
  ∃ (m : ℕ) (e : ℤ), m < 2 ^ 53 ∧ -1074 ≤ e ∧ e ≤ 971 ∧ x = m * 2 ^ e

/-- The expression `Math.floor(100000 + Math.random() * 900000)` (line 131) for
the value `r` of `Math.random()`: the product and the sum are rounded to binary64,
`Math.floor` is exact. -/
def otpDraw (r : ℚ) : ℕ :=
  ⌊roundToDouble (100000 + roundToDouble (r * 900000))⌋₊

/-! ## Lemmas on lists -/

theorem countP_eraseP_self {α : Type} (p : α → Bool) (l : List α) :
    (l.eraseP p).countP p = l.countP p - 1 := by
  induction l with
  | nil => simp
  | cons a t ih =>
    by_cases h : p a = true
    · simp [List.eraseP_cons, h]
    · have hpos : t.countP p - 1 ≤ t.countP p := Nat.sub_le _ _
      simp [List.eraseP_cons, h, List.countP_cons, ih]

theorem find?_eq_some_of_countP_le_one {α : Type} (p : α → Bool) (l : List α) (r : α)
    (hc : l.countP p ≤ 1) (hm : r ∈ l) (hp : p r = true) : l.find? p = some r := by
  induction l with
  | nil => simp at hm
  | cons a t ih =>
    by_cases h : p a = true
    · rcases List.mem_cons.1 hm with rfl | hmt
      · simp [List.find?_cons, h]
      · exfalso
        have hpos : 0 < t.countP p := List.countP_pos_iff.2 ⟨r, hmt, hp⟩
        rw [List.countP_cons_of_pos p t h] at hc
        omega
    · rcases List.mem_cons.1 hm with rfl | hmt
      · exact absurd hp h
      · have hc2 : t.countP p ≤ 1 := by simpa [List.countP_cons, h] using hc
        simp [List.find?_cons, h, ih hc2 hmt]

theorem find?_eraseP_eq_none {α : Type} (p : α → Bool) (l : List α)
    (hc : l.countP p ≤ 1) : (l.eraseP p).find? p = none := by
  have h0 : (l.eraseP p).countP p = 0 := by
    rw [countP_eraseP_self]; omega
  rw [List.find?_eq_none]
  intro x hx hpx
  exact (List.countP_eq_zero.1 h0) x hx hpx

theorem eraseP_otpIdQuery_eq (p : OTPTemp → Bool) (l : List OTPTemp) (r : OTPTemp)
    (hf : l.find? p = some r) (hn : (l.map (fun x => x._id)).Nodup) :
    l.eraseP (otpIdQuery r._id) = l.eraseP p := by
  induction l with
  | nil => simp at hf
  | cons a t ih =>
    by_cases h : p a = true
    · have hra : a = r := by simpa [List.find?_cons, h] using hf
      subst hra
      simp [List.eraseP_cons, h, otpIdQuery]
    · have hft : t.find? p = some r := by simpa [List.find?_cons, h] using hf
      have hrt : r ∈ t := List.mem_of_find?_eq_some hft
      rw [List.map_cons, List.nodup_cons] at hn
      have hne : a._id ≠ r._id := by
        intro he
        exact hn.1 (List.mem_map.2 ⟨r, hrt, he.symm⟩)
      simp [List.eraseP_cons, h, otpIdQuery, hne, ih hft hn.2]

theorem eraseP_otpIdQuery_eq_erase (l : List OTPTemp) (r : OTPTemp) (hm : r ∈ l)
    (hn : (l.map (fun x => x._id)).Nodup) : l.eraseP (otpIdQuery r._id) = l.erase r := by
  induction l with
  | nil => simp at hm
  | cons a t ih =>
    by_cases h : a = r
    · subst h
      simp [List.eraseP_cons, otpIdQuery]
    · have hrt : r ∈ t := by
        rcases List.mem_cons.1 hm with rfl | hmt
        · exact absurd rfl h
        · exact hmt
      rw [List.map_cons, List.nodup_cons] at hn
      have hne : a._id ≠ r._id := by
        intro he
        exact hn.1 (List.mem_map.2 ⟨r, hrt, he.symm⟩)
      have hbeq : (a == r) = false := by simpa using h
      rw [List.erase_cons, hbeq]
      simp [List.eraseP_cons, otpIdQuery, hne, ih hrt hn.2]

/-! ## The challenge store: invariant -/

theorem otpInv_empty : OtpInv OtpStore.empty :=
  ⟨by simp [OtpStore.empty], by simp [OtpStore.empty], by simp [OtpStore.empty]⟩

theorem otpInv_of_sublist {st : OtpStore} (h : OtpInv st) (docs : List OTPTemp)
    (hs : docs.Sublist st.docs) : OtpInv { docs := docs, nextId := st.nextId } where
  idsLt := fun r hr => h.idsLt r (hs.subset hr)
  idsNodup := (hs.map _).nodup h.idsNodup
  single := fun email purpose => le_trans (hs.countP_le _) (h.single email purpose)

theorem createOtpRecord_eq (st : OtpStore) (email purpose : String) (now : Time) (draw : Nat) :
    createOtpRecord st email purpose now draw =
      (toString draw,
        { docs := st.docs.eraseP (otpQuery email purpose) ++
            [{ _id := st.nextId, email := email, otp := toString draw, purpose := purpose,
               expiresAt := now + 600000 }],
          nextId := st.nextId + 1 }) := rfl

theorem otpInv_createOtpRecord {st : OtpStore} (h : OtpInv st) (email purpose : String)
    (now : Time) (draw : Nat) : OtpInv (createOtpRecord st email purpose now draw).2 := by
  rw [createOtpRecord_eq]
  have hsub : (st.docs.eraseP (otpQuery email purpose)).Sublist st.docs := List.eraseP_sublist _
  refine ⟨?_, ?_, ?_⟩
  · intro r hr
    rcases List.mem_append.1 hr with hr | hr
    · exact Nat.lt_succ_of_lt (h.idsLt r (hsub.subset hr))
    · rw [List.mem_singleton] at hr
      subst hr
      exact Nat.lt_succ_self _
  · simp only [List.map_append, List.map_cons, List.map_nil]
    rw [List.nodup_append]
    refine ⟨(hsub.map _).nodup h.idsNodup, List.nodup_singleton _, ?_⟩
    intro a ha hb
    rw [List.mem_singleton] at hb
    rcases List.mem_map.1 ha with ⟨r, hr, rfl⟩
    exact absurd hb (Nat.ne_of_lt (h.idsLt r (hsub.subset hr)))
  · intro e p
    simp only [List.countP_append]
    by_cases hq : e = email ∧ p = purpose
    · obtain ⟨rfl, rfl⟩ := hq
      have h1 := h.single e p
      rw [countP_eraseP_self]
      simp [List.countP_cons, otpQuery]
      omega
    · have h1 := le_trans (hsub.countP_le (otpQuery e p)) (h.single e p)
      have h2 : ∀ r : OTPTemp, r.email = email → r.purpose = purpose →
          otpQuery e p r = false := by
        intro r he hp
        simp only [otpQuery, he, hp, Bool.and_eq_false_imp, beq_iff_eq, beq_eq_false_iff_ne]
        intro he2 hp2
        exact hq ⟨he2.symm, hp2.symm⟩
      rw [List.countP_cons_of_neg _ _ (by rw [h2 _ rfl rfl]; simp), List.countP_nil]
      exact h1

theorem verifyOtp_docs_sublist (st : OtpStore) (email otp purpose : String) (now : Time) :
    (verifyOtp st email otp purpose now).2.docs.Sublist st.docs ∧
      (verifyOtp st email otp purpose now).2.nextId = st.nextId := by
  unfold verifyOtp
  split
  · exact ⟨List.Sublist.refl _, rfl⟩
  · split
    · exact ⟨List.eraseP_sublist _, rfl⟩
    · split
      · exact ⟨List.Sublist.refl _, rfl⟩
      · exact ⟨List.eraseP_sublist _, rfl⟩

theorem otpInv_verifyOtp {st : OtpStore} (h : OtpInv st) (email otp purpose : String)
    (now : Time) : OtpInv (verifyOtp st email otp purpose now).2 := by
  have hs := verifyOtp_docs_sublist st email otp purpose now
  have := otpInv_of_sublist h _ hs.1
  rw [← hs.2] at this
  exact this

theorem otpInv_runOtpCalls (calls : List OtpCall) :
    ∀ st : OtpStore, OtpInv st → OtpInv (runOtpCalls st calls) := by
  induction calls with
  | nil => intro st h; exact h
  | cons c cs ih =>
    intro st h
    simp only [runOtpCalls, List.foldl_cons]
    apply ih
    cases c with
    | create email purpose now draw => exact otpInv_createOtpRecord h email purpose now draw
    | verify email otp purpose now => exact otpInv_verifyOtp h email otp purpose now

theorem otpInv_of_otpReachable {st : OtpStore} (h : OtpReachable st) : OtpInv st := by
  obtain ⟨calls, rfl⟩ := h
  exact otpInv_runOtpCalls calls _ otpInv_empty

/-! ## The challenge store: behaviour of `verifyOtp` -/

theorem challengeCount_eq_countP (st : OtpStore) (email purpose : String) :
    challengeCount st email purpose = st.docs.countP (otpQuery email purpose) := by
  simp [challengeCount, List.countP_eq_length_filter]

theorem find?_eq_none_of_challengeCount {st : OtpStore} {email purpose : String}
    (h : challengeCount st email purpose = 0) :
    st.docs.find? (otpQuery email purpose) = none := by
  rw [challengeCount_eq_countP] at h
  rw [List.find?_eq_none]
  intro x hx hpx
  exact (List.countP_eq_zero.1 h) x hx hpx

theorem verifyOtp_of_no_challenge {st : OtpStore} {email purpose : String}
    (h : challengeCount st email purpose = 0) (otp : String) (now : Time) :
    verifyOtp st email otp purpose now = ({ ok := false, reason := some "no_otp" }, st) := by
  unfold verifyOtp
  rw [find?_eq_none_of_challengeCount h]

theorem find?_of_mem {st : OtpStore} (h : OtpInv st) {r : OTPTemp} (hr : r ∈ st.docs) :
    st.docs.find? (otpQuery r.email r.purpose) = some r :=
  find?_eq_some_of_countP_le_one _ _ _ (h.single _ _) hr (by simp [otpQuery])

theorem verifyOtp_of_mem {st : OtpStore} (h : OtpInv st) {r : OTPTemp} (hr : r ∈ st.docs)
    (otp : String) (now : Time) :
    verifyOtp st r.email otp r.purpose now =
      if r.expiresAt < now then
        ({ ok := false, reason := some "expired" },
          { docs := st.docs.erase r, nextId := st.nextId })
      else if r.otp != otp then ({ ok := false, reason := some "wrong" }, st)
      else ({ ok := true, reason := none }, { docs := st.docs.erase r, nextId := st.nextId }) := by
  unfold verifyOtp
  rw [find?_of_mem h hr]
  simp only [eraseP_otpIdQuery_eq_erase _ _ hr h.idsNodup]

theorem challengeCount_erase {st : OtpStore} (h : OtpInv st) {r : OTPTemp} (hr : r ∈ st.docs) :
    challengeCount { docs := st.docs.erase r, nextId := st.nextId } r.email r.purpose = 0 := by
  rw [challengeCount_eq_countP]
  show (st.docs.erase r).countP (otpQuery r.email r.purpose) = 0
  rw [← eraseP_otpIdQuery_eq_erase _ _ hr h.idsNodup,
    eraseP_otpIdQuery_eq _ _ _ (find?_of_mem h hr) h.idsNodup, countP_eraseP_self]
  have := h.single r.email r.purpose
  omega

theorem challengeCount_apply_of_not_issues {st : OtpStore} {email purpose : String}
    (h : challengeCount st email purpose = 0) (c : OtpCall)
    (hc : c.issues email purpose = false) :
    challengeCount (c.apply st) email purpose = 0 := by
  rw [challengeCount_eq_countP] at h ⊢
  cases c with
  | create e p now draw =>
    have hsub : (st.docs.eraseP (otpQuery e p)).Sublist st.docs := List.eraseP_sublist _
    have h1 : (st.docs.eraseP (otpQuery e p)).countP (otpQuery email purpose) = 0 :=
      Nat.le_zero.1 (h ▸ hsub.countP_le _)
    have h2 : ∀ r : OTPTemp, r.email = e → r.purpose = p →
        otpQuery email purpose r = false := by
      intro r he hp
      simpa [otpQuery, he, hp, OtpCall.issues] using hc
    simp only [OtpCall.apply, createOtpRecord_eq, List.countP_append]
    rw [List.countP_cons_of_neg _ _ (by rw [h2 _ rfl rfl]; simp), List.countP_nil, h1]
  | verify e o p now =>
    exact Nat.le_zero.1 (h ▸ (verifyOtp_docs_sublist st e o p now).1.countP_le _)

theorem challengeCount_runOtpCalls_of_not_issues (calls : List OtpCall)
    (email purpose : String) (hc : ∀ c ∈ calls, c.issues email purpose = false) :
    ∀ st : OtpStore, challengeCount st email purpose = 0 →
      challengeCount (runOtpCalls st calls) email purpose = 0 := by
  induction calls with
  | nil => intro st h; exact h
  | cons c cs ih =>
    intro st h
    simp only [runOtpCalls, List.foldl_cons]
    exact ih (fun c' hc' => hc c' (List.mem_cons_of_mem _ hc')) _
      (challengeCount_apply_of_not_issues h c (hc c (List.mem_cons_self _ _)))

theorem mem_createOtpRecord (st : OtpStore) (email purpose : String) (now : Time) (draw : Nat) :
    ({ _id := st.nextId, email := email, otp := toString draw, purpose := purpose,
       expiresAt := now + 600000 } : OTPTemp) ∈ (createOtpRecord st email purpose now draw).2.docs := by
  rw [createOtpRecord_eq]
  simp

/-! ## The challenge store: the properties -/

/-- C1: in every challenge-store state reachable from the empty store by calls of
`createOtpRecord` and `verifyOtp` there is at most one stored challenge per
`(email, purpose)`; and after two consecutive `createOtpRecord(email, purpose)`
calls returning different codes `c1` then `c2`, exactly one challenge for the pair
is stored, `verifyOtp` with `c2` (at any time up to the expiry of the second
challenge) is accepted, and `verifyOtp` with `c1` is rejected with reason `wrong`,
leaving the store as it is. -/
theorem C1_one_challenge_per_pair (st : OtpStore) (hst : OtpReachable st) :
    (∀ email purpose : String, challengeCount st email purpose ≤ 1) ∧
    ∀ (email purpose : String) (t1 t2 : Time) (d1 d2 : Nat) (c1 c2 : String)
      (st1 st2 : OtpStore),
      createOtpRecord st email purpose t1 d1 = (c1, st1) →
      createOtpRecord st1 email purpose t2 d2 = (c2, st2) →
      c1 ≠ c2 →
      challengeCount st2 email purpose = 1 ∧
      ∀ now : Time, now ≤ t2 + 10 * 60 * 1000 →
        (verifyOtp st2 email c2 purpose now).1 = { ok := true, reason := none } ∧
        verifyOtp st2 email c1 purpose now = ({ ok := false, reason := some "wrong" }, st2) := by
  have hinv := otpInv_of_otpReachable hst
  refine ⟨fun email purpose => ?_, ?_⟩
  · rw [challengeCount_eq_countP]
    exact hinv.single email purpose
  · intro email purpose t1 t2 d1 d2 c1 c2 st1 st2 h1 h2 hne
    have e1 : c1 = toString d1 := by rw [createOtpRecord_eq] at h1; exact (Prod.mk.inj h1).1.symm
    have e1s : st1 = (createOtpRecord st email purpose t1 d1).2 := by rw [h1]
    have e2 : c2 = toString d2 := by rw [createOtpRecord_eq] at h2; exact (Prod.mk.inj h2).1.symm
    have e2s : st2 = (createOtpRecord st1 email purpose t2 d2).2 := by rw [h2]
    have hinv1 : OtpInv st1 := e1s ▸ otpInv_createOtpRecord hinv email purpose t1 d1
    have hinv2 : OtpInv st2 := e2s ▸ otpInv_createOtpRecord hinv1 email purpose t2 d2
    have hmem := mem_createOtpRecord st1 email purpose t2 d2
    rw [← e2s] at hmem
    refine ⟨?_, ?_⟩
    · rw [challengeCount_eq_countP]
      have hpos : 0 < st2.docs.countP (otpQuery email purpose) :=
        List.countP_pos_iff.2 ⟨_, hmem, by simp [otpQuery]⟩
      have := hinv2.single email purpose
      omega
    · intro now hnow
      have hv := verifyOtp_of_mem hinv2 hmem
      have hlive : ¬ (t2 + 600000 < now) := Nat.not_lt.2 hnow
      constructor
      · have h := hv c2 now
        simp only [hlive, if_false] at h
        rw [h, e2]
        simp
      · have h := hv c1 now
        simp only [hlive, if_false] at h
        rw [h]
        have hne2 : ¬ (toString d2 = c1) := fun h => hne (by rw [e2, h])
        simp [hne2]

/-- Witness of C1: the state after one `createOtpRecord` call, then two
further issues for the same pair with codes 222222 and 333333. -/
theorem C1_one_challenge_per_pair_witness :
    challengeCount (createOtpRecord OtpStore.empty "a@x.com" "login" 0 111111).2
        "a@x.com" "login" ≤ 1 ∧
    (verifyOtp { docs := [⟨2, "a@x.com", "333333", "login", 602000⟩], nextId := 3 }
        "a@x.com" "333333" "login" 2000).1 = { ok := true, reason := none } ∧
    verifyOtp { docs := [⟨2, "a@x.com", "333333", "login", 602000⟩], nextId := 3 }
        "a@x.com" "222222" "login" 2000 =
      ({ ok := false, reason := some "wrong" },
        { docs := [⟨2, "a@x.com", "333333", "login", 602000⟩], nextId := 3 }) :=
  have h := C1_one_challenge_per_pair
    (createOtpRecord OtpStore.empty "a@x.com" "login" 0 111111).2
    ⟨[OtpCall.create "a@x.com" "login" 0 111111], rfl⟩
  ⟨h.1 "a@x.com" "login",
    (h.2 "a@x.com" "login" 1000 2000 222222 333333 "222222" "333333"
      { docs := [⟨1, "a@x.com", "222222", "login", 601000⟩], nextId := 2 }
      { docs := [⟨2, "a@x.com", "333333", "login", 602000⟩], nextId := 3 }
      (by decide) (by decide) (by decide)).2 2000 (by decide)⟩

/-- C2: after `createOtpRecord(email, purpose)` at time `t0` returns the code `c`,
the stored challenge for the pair is the single one and has
`expiresAt = t0 + 10 minutes`; a `verifyOtp(email, c, purpose)` at any time `t` with
`t0 <= t < t0 + 10 minutes` returns `{ ok: true }` and deletes that challenge (and
nothing else), and a following `verifyOtp` with the same code returns the reason
`no_otp`. -/
theorem C2_issued_code_accepted_once (st : OtpStore) (hst : OtpReachable st)
    (email purpose : String) (t0 : Time) (draw : Nat) (c : String) (st1 : OtpStore)
    (hissue : createOtpRecord st email purpose t0 draw = (c, st1)) :
    ∃ r : OTPTemp, r ∈ st1.docs ∧ r.email = email ∧ r.purpose = purpose ∧ r.otp = c ∧
      r.expiresAt = t0 + 10 * 60 * 1000 ∧
      (∀ r' ∈ st1.docs, r'.email = email → r'.purpose = purpose → r' = r) ∧
      ∀ t : Time, t0 ≤ t → t < t0 + 10 * 60 * 1000 →
        verifyOtp st1 email c purpose t =
          ({ ok := true, reason := none }, { docs := st1.docs.erase r, nextId := st1.nextId }) ∧
        challengeCount { docs := st1.docs.erase r, nextId := st1.nextId } email purpose = 0 ∧
        ∀ t' : Time,
          verifyOtp { docs := st1.docs.erase r, nextId := st1.nextId } email c purpose t' =
            ({ ok := false, reason := some "no_otp" },
              { docs := st1.docs.erase r, nextId := st1.nextId }) := by
  have hinv := otpInv_of_otpReachable hst
  have e1 : c = toString draw := by
    rw [createOtpRecord_eq] at hissue; exact (Prod.mk.inj hissue).1.symm
  have e1s : st1 = (createOtpRecord st email purpose t0 draw).2 := by rw [hissue]
  have hinv1 : OtpInv st1 := e1s ▸ otpInv_createOtpRecord hinv email purpose t0 draw
  have hmem := mem_createOtpRecord st email purpose t0 draw
  rw [← e1s] at hmem
  refine ⟨_, hmem, rfl, rfl, e1.symm, rfl, ?_, ?_⟩
  · intro r' hr' he hp
    have h1 := find?_of_mem hinv1 hr'
    have h2 := find?_of_mem hinv1 hmem
    rw [he, hp] at h1
    simp only at h2
    rw [h1] at h2
    exact Option.some.inj h2
  · intro t _ ht
    have hv := verifyOtp_of_mem hinv1 hmem c t
    have hlive : ¬ (t0 + 600000 < t) := Nat.lt_asymm ht
    simp only [hlive, if_false] at hv
    have hc0 := challengeCount_erase hinv1 hmem
    refine ⟨?_, hc0, fun t' => verifyOtp_of_no_challenge hc0 c t'⟩
    rw [hv, e1]
    simp

/-- Witness of C2: a challenge issued at time 1000 in the empty store. -/
theorem C2_issued_code_accepted_once_witness :
    ∃ r : OTPTemp, r ∈ [(⟨0, "a@x.com", "123456", "register", 601000⟩ : OTPTemp)] ∧
      r.email = "a@x.com" ∧ r.purpose = "register" ∧ r.otp = "123456" ∧
      r.expiresAt = 1000 + 10 * 60 * 1000 ∧
      (∀ r' ∈ [(⟨0, "a@x.com", "123456", "register", 601000⟩ : OTPTemp)],
        r'.email = "a@x.com" → r'.purpose = "register" → r' = r) ∧
      ∀ t : Time, 1000 ≤ t → t < 1000 + 10 * 60 * 1000 →
        verifyOtp ⟨[⟨0, "a@x.com", "123456", "register", 601000⟩], 1⟩
            "a@x.com" "123456" "register" t =
          ({ ok := true, reason := none },
            { docs := [(⟨0, "a@x.com", "123456", "register", 601000⟩ : OTPTemp)].erase r,
              nextId := 1 }) ∧
        challengeCount
          { docs := [(⟨0, "a@x.com", "123456", "register", 601000⟩ : OTPTemp)].erase r,
            nextId := 1 } "a@x.com" "register" = 0 ∧
        ∀ t' : Time,
          verifyOtp
              { docs := [(⟨0, "a@x.com", "123456", "register", 601000⟩ : OTPTemp)].erase r,
                nextId := 1 } "a@x.com" "123456" "register" t' =
            ({ ok := false, reason := some "no_otp" },
              { docs := [(⟨0, "a@x.com", "123456", "register", 601000⟩ : OTPTemp)].erase r,
                nextId := 1 }) :=
  C2_issued_code_accepted_once OtpStore.empty ⟨[], rfl⟩ "a@x.com" "register" 1000 123456
    "123456" ⟨[⟨0, "a@x.com", "123456", "register", 601000⟩], 1⟩ (by decide)

/-- C3: for every stored challenge that is live at time `now` and every submitted
code different from the stored one, `verifyOtp` returns the reason `wrong` and
leaves the challenge store unchanged, so that a later `verifyOtp` with the stored
code, while the challenge is still live, is accepted. -/
theorem C3_wrong_code_keeps_challenge (st : OtpStore) (hst : OtpReachable st) (r : OTPTemp)
    (hr : r ∈ st.docs) (now : Time) (hlive : now ≤ r.expiresAt) (otp : String)
    (hne : otp ≠ r.otp) :
    verifyOtp st r.email otp r.purpose now = ({ ok := false, reason := some "wrong" }, st) ∧
    ∀ later : Time, now ≤ later → later ≤ r.expiresAt →
      (verifyOtp (verifyOtp st r.email otp r.purpose now).2 r.email r.otp r.purpose later).1 =
        { ok := true, reason := none } := by
  have hinv := otpInv_of_otpReachable hst
  have hw : verifyOtp st r.email otp r.purpose now =
      ({ ok := false, reason := some "wrong" }, st) := by
    rw [verifyOtp_of_mem hinv hr otp now]
    have h1 : ¬ (r.expiresAt < now) := Nat.not_lt.2 hlive
    have h2 : ¬ (r.otp = otp) := fun h => hne h.symm
    simp [h1, h2]
  refine ⟨hw, fun later _ hl => ?_⟩
  rw [hw, verifyOtp_of_mem hinv hr r.otp later]
  have h1 : ¬ (r.expiresAt < later) := Nat.not_lt.2 hl
  simp [h1]

/-- Witness of C3: a live challenge with code 123456 and the submitted code
000000. -/
theorem C3_wrong_code_keeps_challenge_witness :
    verifyOtp (createOtpRecord OtpStore.empty "a@x.com" "login" 0 123456).2
        "a@x.com" "000000" "login" 5 =
      ({ ok := false, reason := some "wrong" },
        (createOtpRecord OtpStore.empty "a@x.com" "login" 0 123456).2) ∧
    ∀ later : Time, 5 ≤ later → later ≤ 600000 →
      (verifyOtp (verifyOtp (createOtpRecord OtpStore.empty "a@x.com" "login" 0 123456).2
          "a@x.com" "000000" "login" 5).2 "a@x.com" "123456" "login" later).1 =
        { ok := true, reason := none } :=
  C3_wrong_code_keeps_challenge (createOtpRecord OtpStore.empty "a@x.com" "login" 0 123456).2
    ⟨[OtpCall.create "a@x.com" "login" 0 123456], rfl⟩
    ⟨0, "a@x.com", "123456", "login", 600000⟩ (by decide) 5 (by decide) "000000" (by decide)

/-- C4: for every stored challenge and every time strictly after its `expiresAt`,
`verifyOtp` with any code returns the reason `expired` and deletes the challenge
(and nothing else); afterwards, whatever helper calls follow that do not issue a
challenge for the same `(email, purpose)`, every `verifyOtp` for that pair returns
the reason `no_otp` and changes nothing. -/
theorem C4_expired_then_no_challenge (st : OtpStore) (hst : OtpReachable st) (r : OTPTemp)
    (hr : r ∈ st.docs) (now : Time) (hexp : r.expiresAt < now) (otp : String) :
    verifyOtp st r.email otp r.purpose now =
      ({ ok := false, reason := some "expired" },
        { docs := st.docs.erase r, nextId := st.nextId }) ∧
    ∀ calls : List OtpCall, (∀ c ∈ calls, c.issues r.email r.purpose = false) →
      ∀ (otp' : String) (now' : Time),
        verifyOtp (runOtpCalls { docs := st.docs.erase r, nextId := st.nextId } calls)
            r.email otp' r.purpose now' =
          ({ ok := false, reason := some "no_otp" },
            runOtpCalls { docs := st.docs.erase r, nextId := st.nextId } calls) := by
  have hinv := otpInv_of_otpReachable hst
  refine ⟨?_, fun calls hc otp' now' => ?_⟩
  · rw [verifyOtp_of_mem hinv hr otp now]
    simp [hexp]
  · exact verifyOtp_of_no_challenge
      (challengeCount_runOtpCalls_of_not_issues calls _ _ hc _ (challengeCount_erase hinv hr))
      otp' now'

/-- Witness of C4: a challenge expiring at 600000, verified at 600001. -/
theorem C4_expired_then_no_challenge_witness :
    verifyOtp (createOtpRecord OtpStore.empty "a@x.com" "login" 0 123456).2
        "a@x.com" "123456" "login" 600001 =
      ({ ok := false, reason := some "expired" },
        { docs := (createOtpRecord OtpStore.empty "a@x.com" "login" 0 123456).2.docs.erase
            ⟨0, "a@x.com", "123456", "login", 600000⟩,
          nextId := (createOtpRecord OtpStore.empty "a@x.com" "login" 0 123456).2.nextId }) ∧
    ∀ calls : List OtpCall, (∀ c ∈ calls, c.issues "a@x.com" "login" = false) →
      ∀ (otp' : String) (now' : Time),
        verifyOtp (runOtpCalls
            { docs := (createOtpRecord OtpStore.empty "a@x.com" "login" 0 123456).2.docs.erase
                ⟨0, "a@x.com", "123456", "login", 600000⟩,
              nextId := (createOtpRecord OtpStore.empty "a@x.com" "login" 0 123456).2.nextId }
            calls) "a@x.com" otp' "login" now' =
          ({ ok := false, reason := some "no_otp" },
            runOtpCalls
              { docs := (createOtpRecord OtpStore.empty "a@x.com" "login" 0 123456).2.docs.erase
                  ⟨0, "a@x.com", "123456", "login", 600000⟩,
                nextId := (createOtpRecord OtpStore.empty "a@x.com" "login" 0 123456).2.nextId }
              calls) :=
  C4_expired_then_no_challenge (createOtpRecord OtpStore.empty "a@x.com" "login" 0 123456).2
    ⟨[OtpCall.create "a@x.com" "login" 0 123456], rfl⟩
    ⟨0, "a@x.com", "123456", "login", 600000⟩ (by decide) 600001 (by decide) "123456"

/-- C5, as stated, fails at the instant `now = expiresAt`: the challenge issued at
time 0 has `expiresAt = 600000`, and `verifyOtp` at time 600000 with the stored code
returns `{ ok: true }`, not the reason `expired`. -/
theorem C5_counterexample :
    (createOtpRecord OtpStore.empty "a@x.com" "login" 0 123456).2.docs =
      [⟨0, "a@x.com", "123456", "login", 600000⟩] ∧
    (600000 : Time) ≥ (⟨0, "a@x.com", "123456", "login", 600000⟩ : OTPTemp).expiresAt ∧
    (verifyOtp (createOtpRecord OtpStore.empty "a@x.com" "login" 0 123456).2
        "a@x.com" "123456" "login" 600000).1 = { ok := true, reason := none } ∧
    (verifyOtp (createOtpRecord OtpStore.empty "a@x.com" "login" 0 123456).2
        "a@x.com" "123456" "login" 600000).1 ≠ { ok := false, reason := some "expired" } := by
  decide

/-- C5, amended: for every stored challenge and every verification time `now`
strictly after `expiresAt`, `verifyOtp` deletes the challenge and returns the
reason `expired`, whatever the submitted code; at the instant `now = expiresAt` the
challenge is still live: the stored code is accepted and any other code gets the
reason `wrong`. -/
theorem C5_expiry_is_strict (st : OtpStore) (hst : OtpReachable st) (r : OTPTemp)
    (hr : r ∈ st.docs) :
    (∀ (now : Time) (otp : String), r.expiresAt < now →
      verifyOtp st r.email otp r.purpose now =
        ({ ok := false, reason := some "expired" },
          { docs := st.docs.erase r, nextId := st.nextId })) ∧
    verifyOtp st r.email r.otp r.purpose r.expiresAt =
      ({ ok := true, reason := none }, { docs := st.docs.erase r, nextId := st.nextId }) ∧
    ∀ otp : String, otp ≠ r.otp →
      verifyOtp st r.email otp r.purpose r.expiresAt =
        ({ ok := false, reason := some "wrong" }, st) := by
  have hinv := otpInv_of_otpReachable hst
  refine ⟨fun now otp hexp => ?_, ?_, fun otp hne => ?_⟩
  · rw [verifyOtp_of_mem hinv hr otp now]
    simp [hexp]
  · rw [verifyOtp_of_mem hinv hr r.otp r.expiresAt]
    simp
  · rw [verifyOtp_of_mem hinv hr otp r.expiresAt]
    have h2 : ¬ (r.otp = otp) := fun h => hne h.symm
    simp [h2]

/-- Witness of the amended C5: the challenge issued at time 0 in the empty
store, verified at 600001. -/
theorem C5_expiry_is_strict_witness :
    verifyOtp (createOtpRecord OtpStore.empty "a@x.com" "login" 0 123456).2
        "a@x.com" "123456" "login" 600001 =
      ({ ok := false, reason := some "expired" },
        { docs := (createOtpRecord OtpStore.empty "a@x.com" "login" 0 123456).2.docs.erase
            ⟨0, "a@x.com", "123456", "login", 600000⟩,
          nextId := (createOtpRecord OtpStore.empty "a@x.com" "login" 0 123456).2.nextId }) :=
  (C5_expiry_is_strict (createOtpRecord OtpStore.empty "a@x.com" "login" 0 123456).2
    ⟨[OtpCall.create "a@x.com" "login" 0 123456], rfl⟩
    ⟨0, "a@x.com", "123456", "login", 600000⟩ (by decide)).1 600001 "123456" (by decide)

/-! ## Routes: invariant -/

theorem toDigitsCore_ne_nil (b : Nat) : ∀ (f n : Nat) (ds : List Char), ds ≠ [] →
    Nat.toDigitsCore b f n ds ≠ [] := by
  intro f
  induction f with
  | zero => intro n ds h; simpa [Nat.toDigitsCore] using h
  | succ f ih =>
    intro n ds _
    simp only [Nat.toDigitsCore]
    split
    · simp
    · exact ih _ _ (by simp)

theorem toString_nat_ne_empty (n : Nat) : toString n ≠ "" := by
  have h : Nat.toDigits 10 n ≠ [] := by
    simp only [Nat.toDigits, Nat.toDigitsCore]
    split
    · simp
    · exact toDigitsCore_ne_nil _ _ _ _ (by simp)
  intro he
  apply h
  have : (toString n).data = [] := by rw [he]
  simpa [toString, Nat.repr, List.asString] using this

theorem truthy_some {s : String} (h : s ≠ "") : truthy (some s) = some s := by
  simp [truthy, h]

theorem truthy_eq_some {x : Option String} {s : String} (h : truthy x = some s) :
    x = some s ∧ s ≠ "" := by
  cases x with
  | none => simp [truthy] at h
  | some y =>
    by_cases hy : y = ""
    · simp [truthy, hy] at h
    · simp only [truthy, hy, if_false, Option.some.injEq] at h
      subst h
      exact ⟨rfl, hy⟩

theorem findUserByEmail_isSome_iff (us : UserStore) (email : String) :
    (findUserByEmail us email).isSome = true ↔ ∃ u ∈ us.docs, u.email = email := by
  simp [findUserByEmail, List.find?_isSome]

theorem findUserByEmail_eq_none_iff (us : UserStore) (email : String) :
    findUserByEmail us email = none ↔ ∀ u ∈ us.docs, u.email ≠ email := by
  simp [findUserByEmail, List.find?_eq_none]

theorem save_eq_some_of_find_none (us : UserStore) (u : User)
    (h : findUserByEmail us u.email = none) :
    us.save u = some { docs := us.docs ++ [u], nextId := us.nextId + 1 } := by
  rw [findUserByEmail_eq_none_iff] at h
  have : us.docs.any (fun x => x.email == u.email) = false := by
    rw [List.any_eq_false]
    intro x hx
    simpa using h x hx
  simp [UserStore.save, this]

theorem registerStart_users (db : Db) (name email phone : Option String) (now : Time)
    (draw : Nat) : (registerStart db name email phone now draw).2.users = db.users := by
  unfold registerStart
  split
  · split
    · rfl
    · split <;> rfl
  · rfl

theorem registerStart_otps (db : Db) (name email phone : Option String) (now : Time)
    (draw : Nat) :
    (registerStart db name email phone now draw).2.otps = db.otps ∨
      ∃ e : String, (registerStart db name email phone now draw).2.otps =
        (createOtpRecord db.otps e "register" now draw).2 := by
  unfold registerStart
  split
  · split
    · exact Or.inl rfl
    · split
      · exact Or.inl rfl
      · exact Or.inr ⟨_, rfl⟩
  · exact Or.inl rfl

theorem loginStart_users (db : Db) (email : Option String) (now : Time) (draw : Nat) :
    (loginStart db email now draw).2.users = db.users := by
  unfold loginStart
  split
  · rfl
  · split <;> rfl

theorem loginStart_otps (db : Db) (email : Option String) (now : Time) (draw : Nat) :
    (loginStart db email now draw).2.otps = db.otps ∨
      ∃ e : String, (loginStart db email now draw).2.otps =
        (createOtpRecord db.otps e "login" now draw).2 := by
  unfold loginStart
  split
  · exact Or.inl rfl
  · split
    · exact Or.inl rfl
    · exact Or.inr ⟨_, rfl⟩

theorem loginVerify_users (db : Db) (email otp : Option String) (now : Time) :
    (loginVerify db email otp now).2.users = db.users := by
  unfold loginVerify
  split
  · simp only
    split
    · rfl
    · split <;> rfl
  · rfl

theorem loginVerify_otps (db : Db) (email otp : Option String) (now : Time) :
    (loginVerify db email otp now).2.otps = db.otps ∨
      ∃ e o : String, (loginVerify db email otp now).2.otps =
        (verifyOtp db.otps e o "login" now).2 := by
  unfold loginVerify
  split
  · simp only
    split
    · exact Or.inr ⟨_, _, rfl⟩
    · split <;> exact Or.inr ⟨_, _, rfl⟩
  · exact Or.inl rfl

theorem registerVerify_otps (db : Db) (name email phone otp : Option String) (now : Time) :
    (registerVerify db name email phone otp now).2.otps = db.otps ∨
      ∃ e o : String, (registerVerify db name email phone otp now).2.otps =
        (verifyOtp db.otps e o "register" now).2 := by
  unfold registerVerify
  split
  · simp only
    split
    · exact Or.inr ⟨_, _, rfl⟩
    · split
      · exact Or.inr ⟨_, _, rfl⟩
      · split <;> exact Or.inr ⟨_, _, rfl⟩
  · exact Or.inl rfl

theorem registerVerify_users (db : Db) (name email phone otp : Option String) (now : Time) :
    (registerVerify db name email phone otp now).2.users = db.users ∨
      ∃ u : User, (∀ v ∈ db.users.docs, v.email ≠ u.email) ∧ u._id = db.users.nextId ∧
        truthy name = some u.name ∧ truthy email = some u.email ∧
        truthy phone = some u.phone ∧ u.isVerified = true ∧
        (registerVerify db name email phone otp now).2.users =
          { docs := db.users.docs ++ [u], nextId := db.users.nextId + 1 } := by
  unfold registerVerify
  split
  · rename_i n e p o hn he hp ho
    simp only
    split
    · exact Or.inl rfl
    · split
      · exact Or.inl rfl
      · rename_i hfind
        have hnone : findUserByEmail db.users e = none := by
          simpa using hfind
        rw [save_eq_some_of_find_none db.users _ hnone]
        exact Or.inr ⟨_, (findUserByEmail_eq_none_iff _ _).1 hnone, rfl, hn, he, hp, rfl, rfl⟩
  · exact Or.inl rfl

theorem handle_otps (db : Db) (req : Request) :
    ∃ calls : List OtpCall, (handle db req).2.otps = runOtpCalls db.otps calls := by
  cases req with
  | registerStart name email phone now draw =>
    rcases registerStart_otps db name email phone now draw with h | ⟨e, h⟩
    · exact ⟨[], h⟩
    · exact ⟨[OtpCall.create e "register" now draw], h⟩
  | registerVerify name email phone otp now =>
    rcases registerVerify_otps db name email phone otp now with h | ⟨e, o, h⟩
    · exact ⟨[], h⟩
    · exact ⟨[OtpCall.verify e o "register" now], h⟩
  | loginStart email now draw =>
    rcases loginStart_otps db email now draw with h | ⟨e, h⟩
    · exact ⟨[], h⟩
    · exact ⟨[OtpCall.create e "login" now draw], h⟩
  | loginVerify email otp now =>
    rcases loginVerify_otps db email otp now with h | ⟨e, o, h⟩
    · exact ⟨[], h⟩
    · exact ⟨[OtpCall.verify e o "login" now], h⟩

theorem handle_users (db : Db) (req : Request) :
    (handle db req).2.users = db.users ∨
      ∃ u : User, (∀ v ∈ db.users.docs, v.email ≠ u.email) ∧ u._id = db.users.nextId ∧
        (handle db req).2.users =
          { docs := db.users.docs ++ [u], nextId := db.users.nextId + 1 } := by
  cases req with
  | registerStart name email phone now draw =>
    exact Or.inl (registerStart_users db name email phone now draw)
  | registerVerify name email phone otp now =>
    rcases registerVerify_users db name email phone otp now with h | ⟨u, h1, h2, _, _, _, _, h3⟩
    · exact Or.inl h
    · exact Or.inr ⟨u, h1, h2, h3⟩
  | loginStart email now draw => exact Or.inl (loginStart_users db email now draw)
  | loginVerify email otp now => exact Or.inl (loginVerify_users db email otp now)

theorem dbInv_empty : DbInv Db.empty :=
  ⟨otpInv_empty, by simp [Db.empty, UserStore.empty], by simp [Db.empty, UserStore.empty],
    by simp [Db.empty, UserStore.empty]⟩

theorem dbInv_handle {db : Db} (h : DbInv db) (req : Request) : DbInv (handle db req).2 := by
  obtain ⟨calls, hc⟩ := handle_otps db req
  have hotp : OtpInv (handle db req).2.otps := by
    rw [hc]
    exact otpInv_runOtpCalls calls _ h.otpInv
  rcases handle_users db req with hu | ⟨u, hfresh, hid, hu⟩
  · exact ⟨hotp, hu ▸ h.emailsNodup, hu ▸ h.userIdsLt, hu ▸ h.userIdsNodup⟩
  · refine ⟨hotp, ?_, ?_, ?_⟩
    · rw [hu]
      simp only [List.map_append, List.map_cons, List.map_nil]
      rw [List.nodup_append]
      refine ⟨h.emailsNodup, List.nodup_singleton _, ?_⟩
      intro a ha hb
      rw [List.mem_singleton] at hb
      rcases List.mem_map.1 ha with ⟨v, hv, rfl⟩
      exact hfresh v hv hb
    · rw [hu]
      intro v hv
      rcases List.mem_append.1 hv with hv | hv
      · exact Nat.lt_succ_of_lt (h.userIdsLt v hv)
      · rw [List.mem_singleton] at hv
        subst hv
        rw [hid]
        exact Nat.lt_succ_self _
    · rw [hu]
      simp only [List.map_append, List.map_cons, List.map_nil]
      rw [List.nodup_append]
      refine ⟨h.userIdsNodup, List.nodup_singleton _, ?_⟩
      intro a ha hb
      rw [List.mem_singleton] at hb
      rcases List.mem_map.1 ha with ⟨v, hv, rfl⟩
      exact absurd (hb.trans hid) (Nat.ne_of_lt (h.userIdsLt v hv))

theorem dbInv_runRequests (reqs : List Request) :
    ∀ db : Db, DbInv db → DbInv (runRequests db reqs) := by
  induction reqs with
  | nil => intro db h; exact h
  | cons r rs ih =>
    intro db h
    simp only [runRequests, List.foldl_cons]
    exact ih _ (dbInv_handle h r)

theorem dbInv_of_reachable {db : Db} (h : Reachable db) : DbInv db := by
  obtain ⟨reqs, rfl⟩ := h
  exact dbInv_runRequests reqs _ dbInv_empty

theorem runOtpCalls_append (st : OtpStore) (xs ys : List OtpCall) :
    runOtpCalls st (xs ++ ys) = runOtpCalls (runOtpCalls st xs) ys := by
  simp [runOtpCalls, List.foldl_append]

theorem otps_runRequests (reqs : List Request) :
    ∀ db : Db, ∃ calls : List OtpCall,
      (runRequests db reqs).otps = runOtpCalls db.otps calls := by
  induction reqs with
  | nil => intro db; exact ⟨[], rfl⟩
  | cons r rs ih =>
    intro db
    obtain ⟨c1, h1⟩ := handle_otps db r
    obtain ⟨c2, h2⟩ := ih (handle db r).2
    refine ⟨c1 ++ c2, ?_⟩
    rw [runOtpCalls_append, ← h1, ← h2]
    simp [runRequests]

theorem otpReachable_of_reachable {db : Db} (h : Reachable db) : OtpReachable db.otps := by
  obtain ⟨reqs, rfl⟩ := h
  obtain ⟨calls, hc⟩ := otps_runRequests reqs Db.empty
  exact ⟨calls, hc.symm⟩

theorem filter_eraseP_of_disjoint {α : Type} (p q : α → Bool)
    (h : ∀ x, p x = true → q x = false) (l : List α) :
    (l.eraseP p).filter q = l.filter q := by
  induction l with
  | nil => simp
  | cons a t ih =>
    by_cases hp : p a = true
    · simp [List.eraseP_cons, hp, List.filter_cons, h a hp]
    · simp [List.eraseP_cons, hp, List.filter_cons, ih]

theorem verifyOtp_after_create {st : OtpStore} (hinv : OtpInv st) (email purpose : String)
    (now : Time) (draw : Nat) (t : Time) (ht : t ≤ now + 600000) :
    (verifyOtp (createOtpRecord st email purpose now draw).2 email (toString draw) purpose t).1 =
      { ok := true, reason := none } := by
  have hinv1 := otpInv_createOtpRecord hinv email purpose now draw
  have hv := verifyOtp_of_mem hinv1 (mem_createOtpRecord st email purpose now draw)
    (toString draw) t
  have hlive : ¬ (now + 600000 < t) := Nat.not_lt.2 ht
  simp only [hlive, if_false] at hv
  rw [hv]
  simp

theorem challengeCount_after_create {st : OtpStore} (hinv : OtpInv st) (email purpose : String)
    (now : Time) (draw : Nat) :
    challengeCount (createOtpRecord st email purpose now draw).2 email purpose = 1 := by
  have hinv1 := otpInv_createOtpRecord hinv email purpose now draw
  rw [challengeCount_eq_countP]
  have hpos : 0 < (createOtpRecord st email purpose now draw).2.docs.countP
      (otpQuery email purpose) :=
    List.countP_pos_iff.2 ⟨_, mem_createOtpRecord st email purpose now draw, by simp [otpQuery]⟩
  have := hinv1.single email purpose
  omega

/-! ## Routes: the properties -/

/-- C6: in every database state reachable from the empty one by requests to
register/start, register/verify, login/start and login/verify handled one after
the other, no two identities have the same email; and register/verify either leaves
the registry as it is or appends one identity whose email is the submitted one and
is the email of no identity stored at that time. -/
theorem C6_email_unique (db : Db) (hdb : Reachable db) :
    (db.users.docs.map (fun u => u.email)).Nodup ∧
    ∀ (name email phone otp : Option String) (now : Time),
      (registerVerify db name email phone otp now).2.users = db.users ∨
      ∃ u : User, truthy email = some u.email ∧ (∀ v ∈ db.users.docs, v.email ≠ u.email) ∧
        (registerVerify db name email phone otp now).2.users.docs = db.users.docs ++ [u] := by
  refine ⟨(dbInv_of_reachable hdb).emailsNodup, fun name email phone otp now => ?_⟩
  rcases registerVerify_users db name email phone otp now with h | ⟨u, h1, _, _, h2, _, _, h3⟩
  · exact Or.inl h
  · exact Or.inr ⟨u, h2, h1, by rw [h3]⟩

/-- Witness of C6: the state after a registration of `a@x.com`. -/
theorem C6_email_unique_witness :
    ((runRequests Db.empty
      [Request.registerStart (some "A") (some "a@x.com") (some "1") 0 111111,
        Request.registerVerify (some "A") (some "a@x.com") (some "1") (some "111111")
          5]).users.docs.map (fun u => u.email)).Nodup :=
  (C6_email_unique _ ⟨[Request.registerStart (some "A") (some "a@x.com") (some "1") 0 111111,
    Request.registerVerify (some "A") (some "a@x.com") (some "1") (some "111111") 5], rfl⟩).1

/-- C7 fails on the code: two registrations started with the same phone number
before either is verified both pass the `phone_exists` check of register/start, and
register/verify creates both identities without looking at the phone. -/
theorem C7_duplicate_phone_registered :
    (∀ r ∈ [Request.registerStart (some "A") (some "a@x.com") (some "1") 0 111111,
        Request.registerStart (some "B") (some "b@x.com") (some "1") 1 222222,
        Request.registerVerify (some "A") (some "a@x.com") (some "1") (some "111111") 2,
        Request.registerVerify (some "B") (some "b@x.com") (some "1") (some "222222") 3],
      r.isRegistration = true) ∧
    (runRequests Db.empty
      [Request.registerStart (some "A") (some "a@x.com") (some "1") 0 111111,
        Request.registerStart (some "B") (some "b@x.com") (some "1") 1 222222,
        Request.registerVerify (some "A") (some "a@x.com") (some "1") (some "111111") 2,
        Request.registerVerify (some "B") (some "b@x.com") (some "1") (some "222222")
          3]).users.docs =
      [⟨0, "A", "a@x.com", "1", true⟩, ⟨1, "B", "b@x.com", "1", true⟩] ∧
    ¬ ((runRequests Db.empty
      [Request.registerStart (some "A") (some "a@x.com") (some "1") 0 111111,
        Request.registerStart (some "B") (some "b@x.com") (some "1") 1 222222,
        Request.registerVerify (some "A") (some "a@x.com") (some "1") (some "111111") 2,
        Request.registerVerify (some "B") (some "b@x.com") (some "1") (some "222222")
          3]).users.docs.map (fun u => u.phone)).Nodup := by
  decide

/-- C8: for every register/verify request whose four fields are present
(non-empty): if `verifyOtp(email, otp, 'register')` is not accepted, the response
is the error with exactly that outcome's reason and the registry is unchanged; if
it is accepted and no identity has the email, exactly one identity is appended,
with the submitted name, email and phone and `isVerified = true`, and the cookie
token and the summary carry the identifier of that new identity (an identifier no
stored identity has, in a reachable state); if it is accepted and the email
exists, the response is `email_exists` and the registry is unchanged. -/
theorem C8_registerVerify_outcomes (db : Db) (name email phone otp : String) (now : Time)
    (hn : name ≠ "") (he : email ≠ "") (hp : phone ≠ "") (ho : otp ≠ "")
    (v : VerifyResult) (otps1 : OtpStore)
    (hv : verifyOtp db.otps email otp "register" now = (v, otps1)) :
    (v.ok = false →
      registerVerify db (some name) (some email) (some phone) (some otp) now =
        (errorResponse 400 v.reason, { users := db.users, otps := otps1 })) ∧
    (v.ok = true → findUserByEmail db.users email = none →
      registerVerify db (some name) (some email) (some phone) (some otp) now =
        ({ status := 200, ok := true, error := none, msg := none,
           user := some { id := db.users.nextId, name := name, email := email },
           cookie := some { userId := db.users.nextId, expiresIn := 7 * 24 * 60 * 60 } },
          { users :=
              { docs := db.users.docs ++
                  [{ _id := db.users.nextId, name := name, email := email, phone := phone,
                     isVerified := true }],
                nextId := db.users.nextId + 1 },
            otps := otps1 }) ∧
      (Reachable db → ∀ w ∈ db.users.docs, w._id ≠ db.users.nextId)) ∧
    (v.ok = true → (findUserByEmail db.users email).isSome = true →
      registerVerify db (some name) (some email) (some phone) (some otp) now =
        (errorResponse 400 (some "email_exists"), { users := db.users, otps := otps1 })) := by
  refine ⟨fun hok => ?_, fun hok hnone => ⟨?_, fun hdb w hw => ?_⟩, fun hok hsome => ?_⟩
  · simp [registerVerify, truthy_some hn, truthy_some he, truthy_some hp, truthy_some ho, hv,
      hok]
  · have hsave := save_eq_some_of_find_none db.users
      { _id := db.users.nextId, name := name, email := email, phone := phone,
        isVerified := true } hnone
    simp [registerVerify, truthy_some hn, truthy_some he, truthy_some hp, truthy_some ho, hv,
      hok, hnone, hsave, sessionResponse]
  · exact Nat.ne_of_lt ((dbInv_of_reachable hdb).userIdsLt w hw)
  · simp [registerVerify, truthy_some hn, truthy_some he, truthy_some hp, truthy_some ho, hv,
      hok, hsome]

/-- Witness of C8: the verification of a registration started at time 0. -/
theorem C8_registerVerify_outcomes_witness :
    registerVerify
        { users := UserStore.empty,
          otps := { docs := [⟨0, "a@x.com", "111111", "register", 600000⟩], nextId := 1 } }
        (some "A") (some "a@x.com") (some "1") (some "111111") 5 =
      ({ status := 200, ok := true, error := none, msg := none,
         user := some { id := 0, name := "A", email := "a@x.com" },
         cookie := some { userId := 0, expiresIn := 7 * 24 * 60 * 60 } },
        { users :=
            { docs := [] ++ [{ _id := 0, name := "A", email := "a@x.com", phone := "1",
                               isVerified := true }],
              nextId := 0 + 1 },
          otps := { docs := [], nextId := 1 } }) :=
  ((C8_registerVerify_outcomes
    { users := UserStore.empty,
      otps := { docs := [⟨0, "a@x.com", "111111", "register", 600000⟩], nextId := 1 } }
    "A" "a@x.com" "1" "111111" 5 (by decide) (by decide) (by decide) (by decide)
    { ok := true, reason := none } { docs := [], nextId := 1 } (by decide)).2.1
      rfl (by decide)).1

theorem findUserByPhone_isSome_iff (us : UserStore) (phone : String) :
    (findUserByPhone us phone).isSome = true ↔ ∃ u ∈ us.docs, u.phone = phone := by
  simp [findUserByPhone, List.find?_isSome]

theorem findUserByPhone_eq_none_iff (us : UserStore) (phone : String) :
    findUserByPhone us phone = none ↔ ∀ u ∈ us.docs, u.phone ≠ phone := by
  simp [findUserByPhone, List.find?_eq_none]

/-- C9: a register/start request fails `missing_fields` exactly when name, email
or phone is absent (undefined or the empty string, the values the guard `!x`
rejects); otherwise it fails `email_exists` if an identity in the registry has the
email; otherwise `phone_exists` if an identity in the registry has the phone;
otherwise it succeeds and stores a `register` challenge for the email expiring 10
minutes later (in a reachable state the only one for the pair, and one its code
verifies against until then).  In every failing case the challenge store is
unchanged, and in every case the registry and the `login` challenges are
unchanged. -/
theorem C9_registerStart_outcomes (db : Db) (name email phone : Option String) (now : Time)
    (draw : Nat) :
    ((registerStart db name email phone now draw).1 =
        errorResponse 400 (some "missing_fields") ↔
      (truthy name = none ∨ truthy email = none ∨ truthy phone = none)) ∧
    (∀ n e p : String, truthy name = some n → truthy email = some e → truthy phone = some p →
      ((∃ u ∈ db.users.docs, u.email = e) →
        registerStart db name email phone now draw =
          (errorResponse 400 (some "email_exists"), db)) ∧
      ((∀ u ∈ db.users.docs, u.email ≠ e) → (∃ u ∈ db.users.docs, u.phone = p) →
        registerStart db name email phone now draw =
          (errorResponse 400 (some "phone_exists"), db)) ∧
      ((∀ u ∈ db.users.docs, u.email ≠ e) → (∀ u ∈ db.users.docs, u.phone ≠ p) →
        registerStart db name email phone now draw =
          (otpSentResponse,
            { users := db.users, otps := (createOtpRecord db.otps e "register" now draw).2 }) ∧
        (∃ r ∈ (registerStart db name email phone now draw).2.otps.docs,
          r.email = e ∧ r.purpose = "register" ∧ r.otp = toString draw ∧
            r.expiresAt = now + 10 * 60 * 1000) ∧
        (Reachable db →
          challengeCount (registerStart db name email phone now draw).2.otps e "register" = 1 ∧
          ∀ t : Time, t ≤ now + 10 * 60 * 1000 →
            (verifyOtp (registerStart db name email phone now draw).2.otps e (toString draw)
              "register" t).1 = { ok := true, reason := none }))) ∧
    ((registerStart db name email phone now draw).1.ok = false →
      (registerStart db name email phone now draw).2.otps = db.otps) ∧
    (registerStart db name email phone now draw).2.users = db.users ∧
    (registerStart db name email phone now draw).2.otps.docs.filter
        (fun r => r.purpose == "login") =
      db.otps.docs.filter (fun r => r.purpose == "login") := by
  refine ⟨?_, ?_, ?_, registerStart_users db name email phone now draw, ?_⟩
  · unfold registerStart
    split
    · rename_i n e p hn he hp
      simp only [hn, he, hp, reduceCtorEq, or_self, iff_false]
      split
      · simp [errorResponse]
      · split
        · simp [errorResponse]
        · simp [errorResponse, otpSentResponse]
    · rename_i hnot
      simp only [true_iff]
      by_contra hcon
      simp only [not_or] at hcon
      obtain ⟨n, hn⟩ := Option.ne_none_iff_exists'.1 hcon.1
      obtain ⟨e, he⟩ := Option.ne_none_iff_exists'.1 hcon.2.1
      obtain ⟨p, hp⟩ := Option.ne_none_iff_exists'.1 hcon.2.2
      exact hnot n e p hn he hp
  · intro n e p hn he hp
    refine ⟨fun g1 => ?_, fun g1 g2 => ?_, fun g1 g2 => ?_⟩
    · have h1 := (findUserByEmail_isSome_iff db.users e).2 g1
      simp [registerStart, hn, he, hp, h1]
    · have h1 := (findUserByEmail_eq_none_iff db.users e).2 g1
      have h2 := (findUserByPhone_isSome_iff db.users p).2 g2
      simp [registerStart, hn, he, hp, h1, h2]
    · have h1 := (findUserByEmail_eq_none_iff db.users e).2 g1
      have h2 := (findUserByPhone_eq_none_iff db.users p).2 g2
      have heq : registerStart db name email phone now draw =
          (otpSentResponse,
            { users := db.users,
              otps := (createOtpRecord db.otps e "register" now draw).2 }) := by
        simp [registerStart, hn, he, hp, h1, h2]
      refine ⟨heq, ?_, fun hdb => ?_⟩
      · rw [heq]
        exact ⟨_, mem_createOtpRecord db.otps e "register" now draw, rfl, rfl, rfl, rfl⟩
      · rw [heq]
        have hinv := (dbInv_of_reachable hdb).otpInv
        exact ⟨challengeCount_after_create hinv e "register" now draw,
          fun t ht => verifyOtp_after_create hinv e "register" now draw t ht⟩
  · intro hfail
    rcases registerStart_otps db name email phone now draw with h | ⟨e, _⟩
    · exact h
    · revert hfail
      unfold registerStart
      split
      · split
        · intro _; rfl
        · split
          · intro _; rfl
          · simp [otpSentResponse]
      · intro _; rfl
  · rcases registerStart_otps db name email phone now draw with h | ⟨e, h⟩
    · rw [h]
    · rw [h, createOtpRecord_eq]
      simp only [List.filter_append]
      rw [filter_eraseP_of_disjoint]
      · simp
      · intro x hx
        simp only [otpQuery, Bool.and_eq_true, beq_iff_eq] at hx
        simp [hx.2]

/-- Witness of C9: with the identity `a@x.com` / phone 1 registered, a start for
`b@x.com` with the phone 1 is refused with `phone_exists`, and a start for
`b@x.com` with the phone 2 is accepted and its code 222222 verifies five
milliseconds later. -/
theorem C9_registerStart_outcomes_witness :
    registerStart
        (runRequests Db.empty
          [Request.registerStart (some "A") (some "a@x.com") (some "1") 0 111111,
            Request.registerVerify (some "A") (some "a@x.com") (some "1") (some "111111") 5])
        (some "B") (some "b@x.com") (some "1") 10 222222 =
      (errorResponse 400 (some "phone_exists"),
        runRequests Db.empty
          [Request.registerStart (some "A") (some "a@x.com") (some "1") 0 111111,
            Request.registerVerify (some "A") (some "a@x.com") (some "1") (some "111111")
              5]) ∧
    (verifyOtp
      (registerStart
        (runRequests Db.empty
          [Request.registerStart (some "A") (some "a@x.com") (some "1") 0 111111,
            Request.registerVerify (some "A") (some "a@x.com") (some "1") (some "111111") 5])
        (some "B") (some "b@x.com") (some "2") 10 222222).2.otps
      "b@x.com" (toString 222222) "register" 15).1 = { ok := true, reason := none } :=
  ⟨((C9_registerStart_outcomes
      (runRequests Db.empty
        [Request.registerStart (some "A") (some "a@x.com") (some "1") 0 111111,
          Request.registerVerify (some "A") (some "a@x.com") (some "1") (some "111111") 5])
      (some "B") (some "b@x.com") (some "1") 10 222222).2.1
      "B" "b@x.com" "1" (by decide) (by decide) (by decide)).2.1 (by decide) (by decide),
    ((((C9_registerStart_outcomes
      (runRequests Db.empty
        [Request.registerStart (some "A") (some "a@x.com") (some "1") 0 111111,
          Request.registerVerify (some "A") (some "a@x.com") (some "1") (some "111111") 5])
      (some "B") (some "b@x.com") (some "2") 10 222222).2.1
      "B" "b@x.com" "2" (by decide) (by decide) (by decide)).2.2 (by decide)
        (by decide)).2.2
      ⟨[Request.registerStart (some "A") (some "a@x.com") (some "1") 0 111111,
        Request.registerVerify (some "A") (some "a@x.com") (some "1") (some "111111") 5],
        rfl⟩).2 15 (by decide)⟩

/-- C10, as stated, fails at the empty email: in the empty registry no identity
has the email `""`, yet login/start answers `missing_email` (the guard of line
231), not `not_registered`. -/
theorem C10_counterexample :
    (∀ u ∈ Db.empty.users.docs, u.email ≠ "") ∧
    (loginStart Db.empty (some "") 0 111111).1 = errorResponse 400 (some "missing_email") ∧
    (loginStart Db.empty (some "") 0 111111).1 ≠ errorResponse 400 (some "not_registered") := by
  decide

/-- C10, amended: login/start fails `missing_email` when the email is absent or
empty; for every registry and every present (non-empty) email it fails
`not_registered` exactly when no identity in the registry has that email, and
otherwise issues a `login` challenge for it; in a reachable state a login/verify
with the issued code, at any time up to the expiry of the challenge, then succeeds
with a cookie token and a summary carrying the identifier of the one identity whose
email was submitted; and neither login route changes the identity registry. -/
theorem C10_login_outcomes (db : Db) (email : Option String) (now : Time) (draw : Nat) :
    (truthy email = none →
      loginStart db email now draw = (errorResponse 400 (some "missing_email"), db)) ∧
    (∀ e : String, truthy email = some e →
      ((loginStart db email now draw).1 = errorResponse 400 (some "not_registered") ↔
        ∀ u ∈ db.users.docs, u.email ≠ e) ∧
      ((∃ u ∈ db.users.docs, u.email = e) →
        loginStart db email now draw =
          (otpSentResponse,
            { users := db.users, otps := (createOtpRecord db.otps e "login" now draw).2 })) ∧
      (Reachable db → ∀ u ∈ db.users.docs, u.email = e →
        (∀ w ∈ db.users.docs, w.email = e → w = u) ∧
        ∀ t : Time, t ≤ now + 10 * 60 * 1000 →
          (loginVerify (loginStart db email now draw).2 email
            (some (createOtpRecord db.otps e "login" now draw).1) t).1 =
            { status := 200, ok := true, error := none, msg := none,
              user := some { id := u._id, name := u.name, email := u.email },
              cookie := some { userId := u._id, expiresIn := 7 * 24 * 60 * 60 } })) ∧
    ∀ (e o : Option String) (t : Time) (d : Nat),
      (loginStart db e t d).2.users = db.users ∧ (loginVerify db e o t).2.users = db.users := by
  refine ⟨fun hnone => ?_, fun e he => ⟨?_, fun hex => ?_, fun hdb u hmem hue => ?_⟩,
    fun e o t d => ⟨loginStart_users db e t d, loginVerify_users db e o t⟩⟩
  · simp [loginStart, hnone]
  · rw [← findUserByEmail_eq_none_iff]
    unfold loginStart
    rw [he]
    simp only
    split
    · rename_i hn
      simp [hn]
    · rename_i w hw
      simp [hw, errorResponse, otpSentResponse]
  · obtain ⟨w, hw⟩ := Option.isSome_iff_exists.1 ((findUserByEmail_isSome_iff db.users e).2 hex)
    simp [loginStart, he, hw]
  · have hinv := dbInv_of_reachable hdb
    have huniq : ∀ w ∈ db.users.docs, w.email = e → w = u := fun w hw hwe =>
      List.inj_on_of_nodup_map hinv.emailsNodup hw hmem (hwe.trans hue.symm)
    obtain ⟨w, hw⟩ := Option.isSome_iff_exists.1
      ((findUserByEmail_isSome_iff db.users e).2 ⟨u, hmem, hue⟩)
    have hwu : w = u := by
      apply huniq w (List.mem_of_find?_eq_some hw)
      have := List.find?_some hw
      simpa using this
    subst hwu
    refine ⟨huniq, fun t ht => ?_⟩
    have heq : loginStart db email now draw =
        (otpSentResponse,
          { users := db.users,
            otps := (createOtpRecord db.otps e "login" now draw).2 }) := by
      simp [loginStart, he, hw]
    have hok := verifyOtp_after_create hinv.otpInv e "login" now draw t ht
    have hc : (createOtpRecord db.otps e "login" now draw).1 = toString draw := rfl
    rw [heq, hc]
    simp [loginVerify, he, truthy_some (toString_nat_ne_empty draw), hok, hw, sessionResponse]

/-- Witness of the amended C10: a login of the identity registered as `a@x.com`,
verified with the issued code 222222 ten milliseconds after the start. -/
theorem C10_login_outcomes_witness :
    (loginVerify
      (loginStart
        (runRequests Db.empty
          [Request.registerStart (some "A") (some "a@x.com") (some "1") 0 111111,
            Request.registerVerify (some "A") (some "a@x.com") (some "1") (some "111111") 5])
        (some "a@x.com") 10 222222).2
      (some "a@x.com") (some "222222") 20).1 =
      { status := 200, ok := true, error := none, msg := none,
        user := some { id := 0, name := "A", email := "a@x.com" },
        cookie := some { userId := 0, expiresIn := 7 * 24 * 60 * 60 } } :=
  (((C10_login_outcomes
    (runRequests Db.empty
      [Request.registerStart (some "A") (some "a@x.com") (some "1") 0 111111,
        Request.registerVerify (some "A") (some "a@x.com") (some "1") (some "111111") 5])
    (some "a@x.com") 10 222222).2.1 "a@x.com" (by decide)).2.2
    ⟨[Request.registerStart (some "A") (some "a@x.com") (some "1") 0 111111,
      Request.registerVerify (some "A") (some "a@x.com") (some "1") (some "111111") 5],
      rfl⟩ ⟨0, "A", "a@x.com", "1", true⟩ (by decide) rfl).2 20 (by decide)

/-! ## Session validation: the properties -/

/-- C11, as stated, fails: a request without a token and a request with a token
that `jwt.verify` rejects are both answered with status 401, but with the
different error bodies `unauthenticated` and `invalid_token`. -/
theorem C11_counterexample :
    authMiddleware (fun _ => Except.error JwtError.expired) none =
      AuthOutcome.reject (errorResponse 401 (some "unauthenticated")) ∧
    authMiddleware (fun _ => Except.error JwtError.expired) (some "abc") =
      AuthOutcome.reject (errorResponse 401 (some "invalid_token")) ∧
    authMiddleware (fun _ => Except.error JwtError.expired) none ≠
      authMiddleware (fun _ => Except.error JwtError.expired) (some "abc") := by
  decide

/-- C11, amended: every rejection by `authMiddleware` has status 401 and
`ok: false`; a request whose token is missing gets the error `unauthenticated`,
and every request whose token is present and rejected by `jwt.verify` (malformed,
expired or mis-signed alike) gets the error `invalid_token`; so two rejected
requests that both carry a token, or both carry none, receive identical
responses. -/
theorem C11_rejection_outcomes (jv1 jv2 : String → Except JwtError ObjectId)
    (t1 t2 : Option String) (r1 r2 : Response)
    (h1 : authMiddleware jv1 t1 = AuthOutcome.reject r1)
    (h2 : authMiddleware jv2 t2 = AuthOutcome.reject r2) :
    r1.status = 401 ∧ r1.ok = false ∧
    (truthy t1 = none → r1 = errorResponse 401 (some "unauthenticated")) ∧
    (truthy t1 ≠ none → r1 = errorResponse 401 (some "invalid_token")) ∧
    ((truthy t1 = none ↔ truthy t2 = none) → r1 = r2) := by
  have key : ∀ (jv : String → Except JwtError ObjectId) (t : Option String) (r : Response),
      authMiddleware jv t = AuthOutcome.reject r →
      (truthy t = none ∧ r = errorResponse 401 (some "unauthenticated")) ∨
      (truthy t ≠ none ∧ r = errorResponse 401 (some "invalid_token")) := by
    intro jv t r h
    unfold authMiddleware at h
    split at h
    · rename_i hn
      exact Or.inl ⟨hn, (AuthOutcome.reject.inj h).symm⟩
    · rename_i tok hs
      split at h
      · exact absurd h (by simp)
      · exact Or.inr ⟨by simp [hs], (AuthOutcome.reject.inj h).symm⟩
  rcases key jv1 t1 r1 h1 with ⟨a1, b1⟩ | ⟨a1, b1⟩ <;>
    rcases key jv2 t2 r2 h2 with ⟨a2, b2⟩ | ⟨a2, b2⟩
  · exact ⟨by rw [b1]; rfl, by rw [b1]; rfl, fun _ => b1, fun h => absurd a1 h,
      fun _ => b1.trans b2.symm⟩
  · exact ⟨by rw [b1]; rfl, by rw [b1]; rfl, fun _ => b1, fun h => absurd a1 h,
      fun h => absurd (h.1 a1) a2⟩
  · exact ⟨by rw [b1]; rfl, by rw [b1]; rfl, fun h => absurd h a1, fun _ => b1,
      fun h => absurd (h.2 a2) a1⟩
  · exact ⟨by rw [b1]; rfl, by rw [b1]; rfl, fun h => absurd h a1, fun _ => b1,
      fun _ => b1.trans b2.symm⟩

/-- Witness of the amended C11: an expired token and a mis-signed token are
rejected with the same response. -/
theorem C11_rejection_outcomes_witness :
    errorResponse 401 (some "invalid_token") = errorResponse 401 (some "invalid_token") ∧
    (errorResponse 401 (some "invalid_token")).status = 401 :=
  have h := C11_rejection_outcomes (fun _ => Except.error JwtError.expired)
    (fun _ => Except.error JwtError.misSigned) (some "abc") (some "def")
    (errorResponse 401 (some "invalid_token")) (errorResponse 401 (some "invalid_token"))
    (by decide) (by decide)
  ⟨h.2.2.2.2 (by decide), h.1⟩

/-! ## Questions: lemmas -/

theorem truthy_of_not_blank {question : String} (hb : isBlank question = false) :
    truthy (some question) = some question := by
  apply truthy_some
  intro h
  rw [h] at hb
  exact absurd hb (by decide)

theorem findPdf_eq_none_iff (ps : PdfStore) (pdfId userId : ObjectId) :
    findPdf ps pdfId userId = none ↔ ∀ d ∈ ps.docs, ¬ (d._id = pdfId ∧ d.userId = userId) := by
  simp [findPdf, List.find?_eq_none]

theorem findPdf_some {ps : PdfStore} {pdfId userId : ObjectId} {pdf : PDF}
    (h : findPdf ps pdfId userId = some pdf) :
    pdf ∈ ps.docs ∧ pdf._id = pdfId ∧ pdf.userId = userId := by
  have h1 := List.mem_of_find?_eq_some h
  have h2 := List.find?_some h
  simp only [Bool.and_eq_true, beq_iff_eq] at h2
  exact ⟨h1, h2.1, h2.2⟩

theorem hfResponse_ok_iff (r : HfResponse) :
    r.ok = true ↔ 200 ≤ r.status ∧ r.status ≤ 299 := by
  simp [HfResponse.ok]

theorem hfResponse_not_ok_iff (r : HfResponse) :
    r.ok = false ↔ r.status < 200 ∨ 299 < r.status := by
  rw [← Bool.not_eq_true, hfResponse_ok_iff]
  omega

theorem ask_pdfs (env : AskEnv) (db : DocDb) (userId : ObjectId)
    (pdfId question : Option String) (now : Time) :
    (ask env db userId pdfId question now).db.pdfs = db.pdfs := by
  unfold ask
  repeat' (first | split | dsimp only)

theorem ask_calls_of_found (env : AskEnv) (db : DocDb) (userId id : ObjectId)
    (pdfId question : String) (now : Time) (pdf : PDF) (hs : pdfId ≠ "")
    (hb : isBlank question = false) (hcast : env.castObjectId pdfId = some id)
    (hpdf : findPdf db.pdfs id userId = some pdf) :
    (ask env db userId (some pdfId) (some question) now).calls =
      [{ question := question, context := (pdf.text.getD []).take 30000 }] := by
  unfold ask
  simp only [truthy_some hs, truthy_of_not_blank hb, hb, hcast, hpdf, Bool.false_eq_true,
    if_false]
  repeat' (first | split | dsimp only)

/-! ## Questions: the properties -/

/-- C12, as stated, fails at an ill-formed document identifier: no document has
the identifier `not-an-id` (it is the identifier of nothing), yet the ask route
answers `server_error` with status 500, not `pdf_not_found`, because `findOne`
throws on it. -/
theorem C12_counterexample :
    hexObjectId "not-an-id" = none ∧
    ask { castObjectId := hexObjectId, castString := fun _ => none,
          gateway := fun _ => FetchOutcome.rejected }
        { pdfs := { docs := [⟨0, 7, "f0", "a.pdf", some [84, 111], 5⟩], nextId := 1 },
          convs := { docs := [], nextId := 0 }, uploads := [] }
        8 (some "not-an-id") (some "What is the total?") 10 =
      { response := askError 500 "server_error",
        db := { pdfs := { docs := [⟨0, 7, "f0", "a.pdf", some [84, 111], 5⟩], nextId := 1 },
                convs := { docs := [], nextId := 0 }, uploads := [] },
        calls := [] } ∧
    askError 500 "server_error" ≠ askError 404 "pdf_not_found" := by
  decide

/-- C12, amended: for every caller, non-blank question and submitted document
identifier: if the identifier is well-formed and no document with that identifier
has `userId` equal to the caller's (also when a document with that identifier
exists under another owner), the ask route answers `pdf_not_found` with status
404; and whenever the submitted identifier, well-formed or not, identifies no
document of the caller, the request fails, nothing is sent to the inference
endpoint and the state, hence the conversations, is unchanged. -/
theorem C12_ask_not_owned (env : AskEnv) (db : DocDb) (userId : ObjectId)
    (pdfId : Option String) (question : String) (now : Time)
    (hb : isBlank question = false)
    (hno : ∀ (s : String) (id : ObjectId), truthy pdfId = some s →
      env.castObjectId s = some id →
      ∀ d ∈ db.pdfs.docs, ¬ (d._id = id ∧ d.userId = userId)) :
    (∀ (s : String) (id : ObjectId), truthy pdfId = some s → env.castObjectId s = some id →
      ask env db userId pdfId (some question) now =
        { response := askError 404 "pdf_not_found", db := db, calls := [] }) ∧
    (ask env db userId pdfId (some question) now).response.ok = false ∧
    (ask env db userId pdfId (some question) now).calls = [] ∧
    (ask env db userId pdfId (some question) now).db = db := by
  have key : ∀ (s : String) (id : ObjectId), truthy pdfId = some s →
      env.castObjectId s = some id →
      ask env db userId pdfId (some question) now =
        { response := askError 404 "pdf_not_found", db := db, calls := [] } := by
    intro s id hs hcast
    have hf := (findPdf_eq_none_iff db.pdfs id userId).2 (hno s id hs hcast)
    simp [ask, hs, truthy_of_not_blank hb, hb, hcast, hf]
  refine ⟨key, ?_⟩
  cases hs : truthy pdfId with
  | none => simp [ask, hs, askError]
  | some s =>
    cases hcast : env.castObjectId s with
    | none => simp [ask, hs, truthy_of_not_blank hb, hb, hcast, askError]
    | some id =>
      rw [key s id hs hcast]
      simp [askError]

/-- Witness of the amended C12: the caller 8 asks about the document 0, which
belongs to the identity 7. -/
theorem C12_ask_not_owned_witness :
    ask { castObjectId := hexObjectId, castString := fun _ => none,
          gateway := fun _ => FetchOutcome.rejected }
        { pdfs := { docs := [⟨0, 7, "f0", "a.pdf", some [84, 111], 5⟩], nextId := 1 },
          convs := { docs := [], nextId := 0 }, uploads := [] }
        8 (some "000000000000000000000000") (some "What is the total?") 10 =
      { response := askError 404 "pdf_not_found",
        db := { pdfs := { docs := [⟨0, 7, "f0", "a.pdf", some [84, 111], 5⟩], nextId := 1 },
                convs := { docs := [], nextId := 0 }, uploads := [] },
        calls := [] } :=
  (C12_ask_not_owned
    { castObjectId := hexObjectId, castString := fun _ => none,
      gateway := fun _ => FetchOutcome.rejected }
    { pdfs := { docs := [⟨0, 7, "f0", "a.pdf", some [84, 111], 5⟩], nextId := 1 },
      convs := { docs := [], nextId := 0 }, uploads := [] }
    8 (some "000000000000000000000000") "What is the total?" 10 (by decide)
    (by
      intro s id hs hcast
      have h1 : s = "000000000000000000000000" :=
        (Option.some.inj (truthy_eq_some hs).1).symm
      subst h1
      have h0 : hexObjectId "000000000000000000000000" = some 0 := by decide
      have h2 : id = 0 := Option.some.inj (hcast.symm.trans h0)
      subst h2
      decide)).1 "000000000000000000000000" 0 (by decide) (by decide)

/-- C13, as stated, fails for a 2xx reply whose body is not JSON: the owner 7
asks about the document 0, the endpoint answers with status 200 and the text
`busy`, and the route answers `server_error` with status 500 and appends no
conversation entry. -/
theorem C13_counterexample :
    HfResponse.ok { status := 200, body := HfBody.readable "busy" HfJson.notJson } = true ∧
    ask { castObjectId := hexObjectId, castString := fun _ => none,
          gateway := fun _ =>
            FetchOutcome.resolved
              { status := 200, body := HfBody.readable "busy" HfJson.notJson } }
        { pdfs := { docs := [⟨0, 7, "f0", "a.pdf", some [84, 111], 5⟩], nextId := 1 },
          convs := { docs := [], nextId := 0 }, uploads := [] }
        7 (some "000000000000000000000000") (some "What is the total?") 10 =
      { response := askError 500 "server_error",
        db := { pdfs := { docs := [⟨0, 7, "f0", "a.pdf", some [84, 111], 5⟩], nextId := 1 },
                convs := { docs := [], nextId := 0 }, uploads := [] },
        calls := [{ question := "What is the total?", context := [84, 111] }] } := by
  decide

/-- C13, amended: for every ask on a document the caller owns, with a non-blank
question: if the endpoint replies with a status outside 200-299 and a readable
body, the response is `llm_error` (status 500) with that body and the state, hence
the conversation store, is unchanged; if it replies with a status in 200-299 and a
body that parses to a JSON value other than `null`, exactly one conversation entry
is appended, bound to the caller and to that document, holding the submitted
question and the endpoint's answer when that is a non-empty string, or the string
"Sorry, I couldn't find an answer." when the answer is empty, null or absent, and
the response carries the same answer; if the request to the endpoint is rejected,
or the body cannot be read, or the status is in 200-299 and the body is not JSON or
is `null`, the request fails and the state is unchanged. -/
theorem C13_ask_owned (env : AskEnv) (db : DocDb) (userId id : ObjectId)
    (pdfId question : String) (now : Time) (pdf : PDF)
    (hs : pdfId ≠ "") (hb : isBlank question = false)
    (hcast : env.castObjectId pdfId = some id)
    (hpdf : findPdf db.pdfs id userId = some pdf) :
    pdf ∈ db.pdfs.docs ∧ pdf._id = id ∧ pdf.userId = userId ∧
    (∀ (r : HfResponse) (txt : String) (j : HfJson),
      env.gateway { question := question, context := (pdf.text.getD []).take 30000 } =
        FetchOutcome.resolved r →
      (r.status < 200 ∨ 299 < r.status) → r.body = HfBody.readable txt j →
      ask env db userId (some pdfId) (some question) now =
        { response :=
            { status := 500, ok := false, error := some "llm_error",
              details := some txt, answer := none, convId := none },
          db := db,
          calls := [{ question := question, context := (pdf.text.getD []).take 30000 }] }) ∧
    (∀ (r : HfResponse) (txt : String) (v : JsValue) (answer : String),
      env.gateway { question := question, context := (pdf.text.getD []).take 30000 } =
        FetchOutcome.resolved r →
      (200 ≤ r.status ∧ r.status ≤ 299) → r.body = HfBody.readable txt (HfJson.value v) →
      ((v = JsValue.str answer ∧ answer ≠ "") ∨
        ((v = JsValue.undefined ∨ v = JsValue.null ∨ v = JsValue.str "" ∨
            v = JsValue.other false) ∧
          answer = "Sorry, I couldn't find an answer.")) →
      ask env db userId (some pdfId) (some question) now =
        { response :=
            { status := 200, ok := true, error := none, details := none,
              answer := some (JsValue.str answer), convId := some db.convs.nextId },
          db :=
            { pdfs := db.pdfs,
              convs :=
                { docs := db.convs.docs ++
                    [{ _id := db.convs.nextId, userId := userId, pdfId := id,
                       question := question, answer := answer, createdAt := now }],
                  nextId := db.convs.nextId + 1 },
              uploads := db.uploads },
          calls := [{ question := question, context := (pdf.text.getD []).take 30000 }] }) ∧
    ((env.gateway { question := question, context := (pdf.text.getD []).take 30000 } =
          FetchOutcome.rejected ∨
        ∃ r : HfResponse,
          env.gateway { question := question, context := (pdf.text.getD []).take 30000 } =
            FetchOutcome.resolved r ∧
          (r.body = HfBody.unreadable ∨
            ((200 ≤ r.status ∧ r.status ≤ 299) ∧
              ∃ txt : String, r.body = HfBody.readable txt HfJson.notJson ∨
                r.body = HfBody.readable txt HfJson.null))) →
      (ask env db userId (some pdfId) (some question) now).response.ok = false ∧
      (ask env db userId (some pdfId) (some question) now).db = db) := by
  obtain ⟨hmem, hid, huid⟩ := findPdf_some hpdf
  refine ⟨hmem, hid, huid, ?_, ?_, ?_⟩
  · intro r txt j hg hst hbody
    have hok := (hfResponse_not_ok_iff r).2 hst
    simp [ask, truthy_some hs, truthy_of_not_blank hb, hb, hcast, hpdf, hg, hok, hbody]
  · intro r txt v answer hg hst hbody hans
    have hok := (hfResponse_ok_iff r).2 hst
    rcases hans with ⟨rfl, hne⟩ | ⟨hv, rfl⟩
    · simp [ask, truthy_some hs, truthy_of_not_blank hb, hb, hcast, hpdf, hg, hok, hbody,
        JsValue.truthy, storedAnswer, hne, hid]
    · rcases hv with rfl | rfl | rfl | rfl <;>
        simp [ask, truthy_some hs, truthy_of_not_blank hb, hb, hcast, hpdf, hg, hok, hbody,
          JsValue.truthy, storedAnswer, hid]
  · rintro (hg | ⟨r, hg, hbody | ⟨hst, txt, hbody | hbody⟩⟩)
    · simp [ask, truthy_some hs, truthy_of_not_blank hb, hb, hcast, hpdf, hg, askError]
    · by_cases hok : r.ok = true <;>
        simp [ask, truthy_some hs, truthy_of_not_blank hb, hb, hcast, hpdf, hg, hok, hbody,
          askError]
    · have hok := (hfResponse_ok_iff r).2 hst
      simp [ask, truthy_some hs, truthy_of_not_blank hb, hb, hcast, hpdf, hg, hok, hbody,
        askError]
    · have hok := (hfResponse_ok_iff r).2 hst
      simp [ask, truthy_some hs, truthy_of_not_blank hb, hb, hcast, hpdf, hg, hok, hbody,
        askError]

/-- Witness of the amended C13: the owner 7 asks about the document 0 and the
endpoint answers 42. -/
theorem C13_ask_owned_witness :
    ask { castObjectId := hexObjectId, castString := fun _ => none,
          gateway := fun _ =>
            FetchOutcome.resolved
              { status := 200,
                body := HfBody.readable "ok" (HfJson.value (JsValue.str "42")) } }
        { pdfs := { docs := [⟨0, 7, "f0", "a.pdf", some [84, 111], 5⟩], nextId := 1 },
          convs := { docs := [], nextId := 0 }, uploads := [] }
        7 (some "000000000000000000000000") (some "What is the total?") 10 =
      { response :=
          { status := 200, ok := true, error := none, details := none,
            answer := some (JsValue.str "42"), convId := some 0 },
        db :=
          { pdfs := { docs := [⟨0, 7, "f0", "a.pdf", some [84, 111], 5⟩], nextId := 1 },
            convs :=
              { docs := [] ++ [{ _id := 0, userId := 7, pdfId := 0,
                                 question := "What is the total?", answer := "42",
                                 createdAt := 10 }],
                nextId := 0 + 1 },
            uploads := [] },
        calls := [{ question := "What is the total?", context := [84, 111] }] } :=
  (C13_ask_owned
    { castObjectId := hexObjectId, castString := fun _ => none,
      gateway := fun _ =>
        FetchOutcome.resolved
          { status := 200, body := HfBody.readable "ok" (HfJson.value (JsValue.str "42")) } }
    { pdfs := { docs := [⟨0, 7, "f0", "a.pdf", some [84, 111], 5⟩], nextId := 1 },
      convs := { docs := [], nextId := 0 }, uploads := [] }
    7 0 "000000000000000000000000" "What is the total?" 10
    ⟨0, 7, "f0", "a.pdf", some [84, 111], 5⟩
    (by decide) (by decide) (by decide) (by decide)).2.2.2.2.1
      { status := 200, body := HfBody.readable "ok" (HfJson.value (JsValue.str "42")) }
      "ok" (JsValue.str "42") "42" rfl (by decide) rfl (Or.inl ⟨rfl, by decide⟩)

/-- C16: for every stored document text, the context the ask route passes to the
inference endpoint is the prefix of that text of length `min(length(text), 30000)`
(counted, as `slice` does, in UTF-16 code units), the empty string when the
document has no text; the question is passed unchanged; and the endpoint is called
exactly once. -/
theorem C16_context_is_bounded_prefix (env : AskEnv) (db : DocDb)
    (userId id : ObjectId) (pdfId question : String) (now : Time) (pdf : PDF)
    (hs : pdfId ≠ "") (hb : isBlank question = false)
    (hcast : env.castObjectId pdfId = some id)
    (hpdf : findPdf db.pdfs id userId = some pdf) :
    ∃ context : JsText,
      (ask env db userId (some pdfId) (some question) now).calls =
        [{ question := question, context := context }] ∧
      context <+: pdf.text.getD [] ∧
      context.length = min (pdf.text.getD []).length 30000 ∧
      (∀ text : JsText, pdf.text = some text →
        context = text.take 30000 ∧ (text.length ≤ 30000 → context = text)) ∧
      (pdf.text = none ∨ pdf.text = some [] → context = []) := by
  refine ⟨(pdf.text.getD []).take 30000,
    ask_calls_of_found env db userId id pdfId question now pdf hs hb hcast hpdf,
    List.take_prefix _ _, ?_, ?_, ?_⟩
  · rw [List.length_take, Nat.min_comm]
  · intro text ht
    rw [ht]
    exact ⟨rfl, fun hle => List.take_of_length_le hle⟩
  · rintro (h | h) <;> rw [h] <;> rfl

/-- Witness of C16: a stored text of two code units. -/
theorem C16_context_is_bounded_prefix_witness :
    ∃ context : JsText,
      (ask { castObjectId := hexObjectId, castString := fun _ => none,
             gateway := fun _ => FetchOutcome.rejected }
        { pdfs := { docs := [⟨0, 7, "f0", "a.pdf", some [84, 111], 5⟩], nextId := 1 },
          convs := { docs := [], nextId := 0 }, uploads := [] }
        7 (some "000000000000000000000000") (some "What is the total?") 10).calls =
        [{ question := "What is the total?", context := context }] ∧
      context <+: (some [84, 111] : Option JsText).getD [] ∧
      context.length = min ((some [84, 111] : Option JsText).getD []).length 30000 ∧
      (∀ text : JsText, (some [84, 111] : Option JsText) = some text →
        context = text.take 30000 ∧ (text.length ≤ 30000 → context = text)) ∧
      ((some [84, 111] : Option JsText) = none ∨ (some [84, 111] : Option JsText) = some [] →
        context = []) :=
  C16_context_is_bounded_prefix
    { castObjectId := hexObjectId, castString := fun _ => none,
      gateway := fun _ => FetchOutcome.rejected }
    { pdfs := { docs := [⟨0, 7, "f0", "a.pdf", some [84, 111], 5⟩], nextId := 1 },
      convs := { docs := [], nextId := 0 }, uploads := [] }
    7 0 "000000000000000000000000" "What is the total?" 10
    ⟨0, 7, "f0", "a.pdf", some [84, 111], 5⟩
    (by decide) (by decide) (by decide) (by decide)

/-! ## Documents: invariant -/

theorem uploadPdf_pdfs (db : DocDb) (userId : ObjectId) (file : Option UploadedFile)
    (parsed : ParseOutcome) (now : Time) :
    (uploadPdf db userId file parsed now).2.pdfs = db.pdfs ∨
      ∃ d : PDF, d._id = db.pdfs.nextId ∧
        (uploadPdf db userId file parsed now).2.pdfs =
          { docs := db.pdfs.docs ++ [d], nextId := db.pdfs.nextId + 1 } := by
  unfold uploadPdf
  split
  · exact Or.inl rfl
  · split
    · exact Or.inl rfl
    · exact Or.inr ⟨_, rfl, rfl⟩

theorem pdfInv_apply (env : AskEnv) {db : DocDb} (h : PdfInv db.pdfs)
    (req : DocRequest) : PdfInv (req.apply env db).pdfs := by
  cases req with
  | ask userId pdfId question now =>
    show PdfInv (ask env db userId pdfId question now).db.pdfs
    rw [ask_pdfs]
    exact h
  | upload userId file parsed now =>
    show PdfInv (uploadPdf db userId file parsed now).2.pdfs
    rcases uploadPdf_pdfs db userId file parsed now with hu | ⟨d, hid, hu⟩
    · rw [hu]; exact h
    · rw [hu]
      refine ⟨?_, ?_⟩
      · intro x hx
        rcases List.mem_append.1 hx with hx | hx
        · exact Nat.lt_succ_of_lt (h.idsLt x hx)
        · rw [List.mem_singleton] at hx
          subst hx
          rw [hid]
          exact Nat.lt_succ_self _
      · simp only [List.map_append, List.map_cons, List.map_nil]
        rw [List.nodup_append]
        refine ⟨h.idsNodup, List.nodup_singleton _, ?_⟩
        intro a ha hb
        rw [List.mem_singleton] at hb
        rcases List.mem_map.1 ha with ⟨x, hx, rfl⟩
        exact absurd (hb.trans hid) (Nat.ne_of_lt (h.idsLt x hx))

theorem pdfInv_runDocRequests (env : AskEnv) (reqs : List DocRequest) :
    ∀ db : DocDb, PdfInv db.pdfs → PdfInv (runDocRequests env db reqs).pdfs := by
  induction reqs with
  | nil => intro db h; exact h
  | cons r rs ih =>
    intro db h
    simp only [runDocRequests, List.foldl_cons]
    exact ih _ (pdfInv_apply env h r)

theorem pdfInv_of_docReachable {db : DocDb} (h : DocReachable db) : PdfInv db.pdfs := by
  obtain ⟨env, reqs, rfl⟩ := h
  exact pdfInv_runDocRequests env reqs _ ⟨by simp [DocDb.empty], by simp [DocDb.empty]⟩

theorem find?_eq_some_of_nodup_ids (p : PDF → Bool) (l : List PDF) (d : PDF)
    (hn : (l.map (fun x => x._id)).Nodup) (hm : d ∈ l) (hp : p d = true)
    (hid : ∀ x, p x = true → x._id = d._id) : l.find? p = some d := by
  induction l with
  | nil => simp at hm
  | cons a t ih =>
    rw [List.map_cons, List.nodup_cons] at hn
    by_cases h : p a = true
    · rcases List.mem_cons.1 hm with rfl | hmt
      · simp [List.find?_cons, h]
      · exact absurd (List.mem_map.2 ⟨d, hmt, (hid a h).symm⟩) hn.1
    · rcases List.mem_cons.1 hm with rfl | hmt
      · exact absurd hp h
      · simp [List.find?_cons, h, ih hn.2 hmt]

theorem findPdf_of_mem {ps : PdfStore} (h : PdfInv ps) {d : PDF} (hd : d ∈ ps.docs) :
    findPdf ps d._id d.userId = some d := by
  apply find?_eq_some_of_nodup_ids _ _ _ h.idsNodup hd
  · simp
  · intro x hx
    simp only [Bool.and_eq_true, beq_iff_eq] at hx
    exact hx.1

/-! ## Documents: the properties -/

/-- C15: for every document store and owner, the my-pdfs listing consists of
exactly the stored documents whose `userId` is the owner's, each once and without
its `text` field, none of another owner; it is ordered by `uploadedAt`
non-increasing; and (in a reachable state) the stored text of each of the owner's
documents is still what the ask route, given that document's identifier, sends as
context, cut at 30000 code units. -/
theorem C15_listing (db : DocDb) (userId : ObjectId) :
    (myPdfs db userId).Perm
      ((db.pdfs.docs.filter (fun d => d.userId == userId)).map selectMinusText) ∧
    (∀ item : PDF, item ∈ myPdfs db userId ↔
      ∃ d ∈ db.pdfs.docs, d.userId = userId ∧ item = selectMinusText d) ∧
    (myPdfs db userId).Pairwise (fun a b => b.uploadedAt ≤ a.uploadedAt) ∧
    (∀ item ∈ myPdfs db userId, item.text = none ∧ item.userId = userId) ∧
    (DocReachable db → ∀ d ∈ db.pdfs.docs, d.userId = userId →
      ∀ (env : AskEnv) (pdfId question : String) (now : Time),
        pdfId ≠ "" → env.castObjectId pdfId = some d._id → isBlank question = false →
        (ask env db userId (some pdfId) (some question) now).calls =
          [{ question := question, context := (d.text.getD []).take 30000 }]) := by
  have hperm : (myPdfs db userId).Perm
      ((db.pdfs.docs.filter (fun d => d.userId == userId)).map selectMinusText) :=
    (List.perm_insertionSort newerFirst _).map selectMinusText
  have hmem : ∀ item : PDF, item ∈ myPdfs db userId ↔
      ∃ d ∈ db.pdfs.docs, d.userId = userId ∧ item = selectMinusText d := by
    intro item
    rw [hperm.mem_iff, List.mem_map]
    constructor
    · rintro ⟨d, hd, rfl⟩
      rw [List.mem_filter] at hd
      exact ⟨d, hd.1, by simpa using hd.2, rfl⟩
    · rintro ⟨d, hd, hu, rfl⟩
      exact ⟨d, List.mem_filter.2 ⟨hd, by simpa using hu⟩, rfl⟩
  refine ⟨hperm, hmem, ?_, ?_, ?_⟩
  · haveI : IsTotal PDF newerFirst := ⟨fun a b => Nat.le_total b.uploadedAt a.uploadedAt⟩
    haveI : IsTrans PDF newerFirst := ⟨fun a b c hab hbc => Nat.le_trans hbc hab⟩
    have hsorted := List.sorted_insertionSort newerFirst
      (db.pdfs.docs.filter (fun d => d.userId == userId))
    unfold myPdfs
    rw [List.pairwise_map]
    exact hsorted
  · intro item hitem
    obtain ⟨d, _, hu, rfl⟩ := (hmem item).1 hitem
    exact ⟨rfl, hu⟩
  · intro hreach d hd hu env pdfId question now hs hcast hb
    have hf := findPdf_of_mem (pdfInv_of_docReachable hreach) hd
    rw [hu] at hf
    exact ask_calls_of_found env db userId d._id pdfId question now d hs hb hcast hf

/-- Witness of C15: after an upload by the owner 7, the listing holds the
document without its text and the ask route still sends the text. -/
theorem C15_listing_witness :
    (ask { castObjectId := hexObjectId, castString := fun _ => none,
           gateway := fun _ => FetchOutcome.rejected }
      (runDocRequests
        { castObjectId := hexObjectId, castString := fun _ => none,
          gateway := fun _ => FetchOutcome.rejected }
        DocDb.empty
        [DocRequest.upload 7 (some ⟨"uploads/f0", "f0", "a.pdf"⟩)
          (ParseOutcome.returns (some (some [84, 111]))) 5])
      7 (some "000000000000000000000000") (some "What is the total?") 10).calls =
      [{ question := "What is the total?", context := [84, 111] }] :=
  (C15_listing
    (runDocRequests
      { castObjectId := hexObjectId, castString := fun _ => none,
        gateway := fun _ => FetchOutcome.rejected }
      DocDb.empty
      [DocRequest.upload 7 (some ⟨"uploads/f0", "f0", "a.pdf"⟩)
        (ParseOutcome.returns (some (some [84, 111]))) 5]) 7).2.2.2.2
    ⟨{ castObjectId := hexObjectId, castString := fun _ => none,
       gateway := fun _ => FetchOutcome.rejected },
      [DocRequest.upload 7 (some ⟨"uploads/f0", "f0", "a.pdf"⟩)
        (ParseOutcome.returns (some (some [84, 111]))) 5], rfl⟩
    ⟨0, 7, "f0", "a.pdf", some [84, 111], 5⟩ (by decide) rfl
    { castObjectId := hexObjectId, castString := fun _ => none,
      gateway := fun _ => FetchOutcome.rejected }
    "000000000000000000000000" "What is the total?" 10 (by decide) (by decide) (by decide)

/-- C14 fails on the code when the text extractor fails: if `pdfParse` throws,
the route answers `server_error` with status 500, stores no document, and the
uploaded file is still in `uploads/`. -/
theorem C14_extractor_failure_blocks_upload :
    uploadPdf { pdfs := { docs := [], nextId := 0 }, convs := { docs := [], nextId := 0 },
                uploads := ["uploads/f0"] }
        7 (some ⟨"uploads/f0", "f0", "a.pdf"⟩) ParseOutcome.throws 5 =
      ({ status := 500, ok := false, error := some "server_error", pdf := none },
        { pdfs := { docs := [], nextId := 0 }, convs := { docs := [], nextId := 0 },
          uploads := ["uploads/f0"] }) ∧
    "uploads/f0" ∈
      (uploadPdf { pdfs := { docs := [], nextId := 0 }, convs := { docs := [], nextId := 0 },
                   uploads := ["uploads/f0"] }
        7 (some ⟨"uploads/f0", "f0", "a.pdf"⟩) ParseOutcome.throws 5).2.uploads := by
  decide

/-- What the upload route does when the text extractor returns: one document
bound to the owner is appended, with the extracted text, or with empty text when
extraction yields nothing (no result, no text or empty text), the response names
it, and the uploaded file is removed. -/
theorem uploadPdf_of_returns (db : DocDb) (userId : ObjectId) (file : UploadedFile)
    (now : Time) (pdfData : Option (Option JsText)) :
    ∃ text : JsText,
      ((pdfData = none ∨ pdfData = some none ∨ pdfData = some (some [])) → text = []) ∧
      (∀ t : JsText, pdfData = some (some t) → text = t) ∧
      uploadPdf db userId (some file) (ParseOutcome.returns pdfData) now =
        ({ status := 200, ok := true, error := none,
           pdf := some (db.pdfs.nextId, file.originalname) },
          { pdfs :=
              { docs := db.pdfs.docs ++
                  [{ _id := db.pdfs.nextId, userId := userId, filename := file.filename,
                     originalName := file.originalname, text := some text,
                     uploadedAt := now }],
                nextId := db.pdfs.nextId + 1 },
            convs := db.convs,
            uploads := db.uploads.filter (fun f => f != file.path) }) ∧
      file.path ∉
        (uploadPdf db userId (some file) (ParseOutcome.returns pdfData) now).2.uploads := by
  refine ⟨extractedText pdfData, ?_, ?_, rfl, ?_⟩
  · rintro (h | h | h) <;> rw [h] <;> rfl
  · intro t h
    rw [h]
    rfl
  · simp [uploadPdf]

/-! ## The random code: rounding lemmas -/
theorem floor_le_roundHalfEven (q : ℚ) : ⌊q⌋ ≤ roundHalfEven q := by
  unfold roundHalfEven
  split
  · exact le_refl _
  · split
    · omega
    · split <;> omega

theorem roundHalfEven_le_of_le (q : ℚ) (n : ℤ) (h : q ≤ n) : roundHalfEven q ≤ n := by
  have hf : (⌊q⌋ : ℚ) ≤ q := Int.floor_le q
  have hfn : ⌊q⌋ ≤ n := by exact_mod_cast hf.trans h
  unfold roundHalfEven
  split
  · exact hfn
  · rename_i h1
    have h2 : (⌊q⌋ : ℚ) + 1 / 2 ≤ q := by linarith [not_lt.1 h1]
    have h3 : (⌊q⌋ : ℚ) < n := by linarith
    have h4 : ⌊q⌋ < n := by exact_mod_cast h3
    split
    · omega
    · split <;> omega

theorem le_roundHalfEven_of_le (q : ℚ) (n : ℤ) (h : (n : ℚ) ≤ q) : n ≤ roundHalfEven q :=
  le_trans (Int.le_floor.2 h) (floor_le_roundHalfEven q)

theorem roundHalfEven_le_pred (q : ℚ) (n : ℤ) (h : q < n - 1 / 2) : roundHalfEven q ≤ n - 1 := by
  have hf : (⌊q⌋ : ℚ) ≤ q := Int.floor_le q
  have hfn : (⌊q⌋ : ℚ) < n := by linarith
  have hfn2 : ⌊q⌋ < n := by exact_mod_cast hfn
  unfold roundHalfEven
  split
  · omega
  · rename_i h1
    have h2 : (⌊q⌋ : ℚ) + 1 / 2 ≤ q := by linarith [not_lt.1 h1]
    have h3 : (⌊q⌋ : ℚ) + 1 < n := by linarith
    have h4 : ⌊q⌋ + 1 < n := by exact_mod_cast h3
    split
    · omega
    · split <;> omega

theorem two_zpow_pos (e : ℤ) : (0 : ℚ) < 2 ^ e := zpow_pos (by norm_num) e

theorem zpow_multiple (n : ℤ) (e E : ℤ) (h : e ≤ E) :
    ∃ k : ℤ, (n : ℚ) * 2 ^ E = k * 2 ^ e := by
  refine ⟨n * 2 ^ (E - e).toNat, ?_⟩
  have hE : E = e + ((E - e).toNat : ℤ) := by omega
  conv_lhs => rw [hE]
  rw [zpow_add₀ (by norm_num : (2 : ℚ) ≠ 0), zpow_natCast]
  push_cast
  ring

theorem roundToDouble_le (x : ℚ) (n E : ℤ) (hE : ulpExponent x ≤ E)
    (h : x ≤ n * 2 ^ E) : roundToDouble x ≤ n * 2 ^ E := by
  obtain ⟨k, hk⟩ := zpow_multiple n (ulpExponent x) E hE
  have hpos := two_zpow_pos (ulpExponent x)
  rw [hk] at h ⊢
  have hq : x / 2 ^ ulpExponent x ≤ k := by
    rw [div_le_iff₀ hpos]; exact h
  have := roundHalfEven_le_of_le _ k hq
  unfold roundToDouble
  have hc : ((roundHalfEven (x / 2 ^ ulpExponent x) : ℤ) : ℚ) ≤ k := by exact_mod_cast this
  exact mul_le_mul_of_nonneg_right hc hpos.le

theorem le_roundToDouble (x : ℚ) (n E : ℤ) (hE : ulpExponent x ≤ E)
    (h : (n : ℚ) * 2 ^ E ≤ x) : (n : ℚ) * 2 ^ E ≤ roundToDouble x := by
  obtain ⟨k, hk⟩ := zpow_multiple n (ulpExponent x) E hE
  have hpos := two_zpow_pos (ulpExponent x)
  rw [hk] at h ⊢
  have hq : (k : ℚ) ≤ x / 2 ^ ulpExponent x := by
    rw [le_div_iff₀ hpos]; exact h
  have := le_roundHalfEven_of_le _ k hq
  unfold roundToDouble
  have hc : (k : ℚ) ≤ ((roundHalfEven (x / 2 ^ ulpExponent x) : ℤ) : ℚ) := by exact_mod_cast this
  exact mul_le_mul_of_nonneg_right hc hpos.le

theorem ulpExponent_le (x : ℚ) (k : ℤ) (hk : 0 ≤ k) (hx : x < 2 ^ (k + 1))
    (hlow : -1074 ≤ k - 52) : ulpExponent x ≤ k - 52 := by
  unfold ulpExponent
  apply max_le _ hlow
  have : Int.log 2 x ≤ k := by
    rcases le_or_lt x 0 with h0 | h0
    · rw [Int.log_of_right_le_zero _ h0]; exact hk
    · have := (Int.lt_zpow_iff_log_lt (by norm_num : 1 < 2) h0).1 (by exact_mod_cast hx)
      omega
  omega


theorem roundToDouble_nonneg (x : ℚ) (h : 0 ≤ x) : 0 ≤ roundToDouble x := by
  have := le_roundToDouble x 0 (ulpExponent x) (le_refl _) (by simpa using h)
  simpa using this

theorem isDouble_lt_one (r : ℚ) (hd : IsDouble r) (h1 : r < 1) :
    r ≤ (2 ^ 53 - 1) / 2 ^ 53 := by
  obtain ⟨m, e, hm, _, _, rfl⟩ := hd
  rcases le_or_lt (-53) e with he | he
  · have hk : e = -53 + ((e + 53).toNat : ℤ) := by omega
    have hr : (m : ℚ) * 2 ^ e = ((m * 2 ^ (e + 53).toNat : ℕ) : ℚ) / 2 ^ 53 := by
      conv_lhs => rw [hk]
      rw [zpow_add₀ (by norm_num : (2 : ℚ) ≠ 0), zpow_natCast]
      push_cast
      norm_num
      ring
    rw [hr] at h1 ⊢
    rw [div_lt_one (by positivity)] at h1
    have h2 : m * 2 ^ (e + 53).toNat < 2 ^ 53 := by exact_mod_cast h1
    have h3 : m * 2 ^ (e + 53).toNat ≤ 9007199254740991 := by omega
    have h4 : ((m * 2 ^ (e + 53).toNat : ℕ) : ℚ) ≤ 2 ^ 53 - 1 := by
      norm_num
      exact_mod_cast h3
    exact div_le_div_of_nonneg_right h4 (by positivity)
  · have h2 : (2 : ℚ) ^ e ≤ 2 ^ (-54 : ℤ) := zpow_le_zpow_right₀ (by norm_num) (by omega)
    have h3 : (m : ℚ) ≤ 2 ^ 53 := by exact_mod_cast hm.le
    have h4 : (m : ℚ) * 2 ^ e ≤ 2 ^ 53 * 2 ^ (-54 : ℤ) :=
      mul_le_mul h3 h2 (two_zpow_pos e).le (by positivity)
    refine h4.trans ?_
    norm_num


theorem roundToDouble_product_le (r : ℚ) (h1 : r ≤ (2 ^ 53 - 1) / 2 ^ 53) :
    roundToDouble (r * 900000) ≤ 900000 - 1 / 2 ^ 33 := by
  have hp : r * 900000 ≤ (2 ^ 53 - 1) / 2 ^ 53 * 900000 :=
    mul_le_mul_of_nonneg_right h1 (by norm_num)
  rcases lt_or_le (r * 900000) (2 ^ 19) with hlt | hge
  · have hE : ulpExponent (r * 900000) ≤ -34 :=
      ulpExponent_le _ 18 (by norm_num) (by norm_num; linarith) (by norm_num)
    have hle : r * 900000 ≤ ((2 ^ 53 : ℤ) : ℚ) * 2 ^ (-34 : ℤ) := by
      norm_num
      linarith
    have := roundToDouble_le _ _ _ hE hle
    refine this.trans ?_
    norm_num
  · have hpos : (0 : ℚ) < r * 900000 := lt_of_lt_of_le (by norm_num) hge
    have hlog : Int.log 2 (r * 900000) = 19 := by
      have ha : (19 : ℤ) ≤ Int.log 2 (r * 900000) :=
        (Int.zpow_le_iff_le_log (by norm_num : 1 < 2) hpos).1 (by norm_num; linarith)
      have hb : Int.log 2 (r * 900000) < 20 :=
        (Int.lt_zpow_iff_log_lt (by norm_num : 1 < 2) hpos).1 (by norm_num; linarith)
      omega
    have hulp : ulpExponent (r * 900000) = -33 := by
      unfold ulpExponent
      rw [hlog]
      norm_num
    unfold roundToDouble
    rw [hulp]
    have hq : r * 900000 / 2 ^ (-33 : ℤ) < ((900000 * 2 ^ 33 : ℤ) : ℚ) - 1 / 2 := by
      rw [div_lt_iff₀ (two_zpow_pos _)]
      norm_num
      norm_num at hp
      linarith
    have hr := roundHalfEven_le_pred _ _ hq
    have hc : ((roundHalfEven (r * 900000 / 2 ^ (-33 : ℤ)) : ℤ) : ℚ) ≤
        ((900000 * 2 ^ 33 - 1 : ℤ) : ℚ) := by exact_mod_cast hr
    have := mul_le_mul_of_nonneg_right hc (two_zpow_pos (-33)).le
    refine this.trans ?_
    norm_num

theorem roundToDouble_sum_bounds (f : ℚ) (h0 : 0 ≤ f) (h1 : f ≤ 900000 - 1 / 2 ^ 33) :
    100000 ≤ roundToDouble (100000 + f) ∧ roundToDouble (100000 + f) < 1000000 := by
  have hE : ulpExponent (100000 + f) ≤ -33 :=
    ulpExponent_le _ 19 (by norm_num) (by norm_num; linarith) (by norm_num)
  constructor
  · have hle : ((100000 * 2 ^ 33 : ℤ) : ℚ) * 2 ^ (-33 : ℤ) ≤ 100000 + f := by
      norm_num
      linarith
    have := le_roundToDouble _ _ _ hE hle
    refine le_trans ?_ this
    norm_num
  · have hle : 100000 + f ≤ ((1000000 * 2 ^ 33 - 1 : ℤ) : ℚ) * 2 ^ (-33 : ℤ) := by
      norm_num
      norm_num at h1
      linarith
    have := roundToDouble_le _ _ _ hE hle
    refine lt_of_le_of_lt this ?_
    norm_num

theorem otpDraw_range (r : ℚ) (hd : IsDouble r) (h0 : 0 ≤ r) (h1 : r < 1) :
    100000 ≤ otpDraw r ∧ otpDraw r ≤ 999999 := by
  have hr := isDouble_lt_one r hd h1
  have hf0 : 0 ≤ roundToDouble (r * 900000) :=
    roundToDouble_nonneg _ (mul_nonneg h0 (by norm_num))
  have hf1 := roundToDouble_product_le r hr
  obtain ⟨hlo, hhi⟩ := roundToDouble_sum_bounds _ hf0 hf1
  unfold otpDraw
  constructor
  · exact Nat.le_floor (by exact_mod_cast hlo)
  · have : ⌊roundToDouble (100000 + roundToDouble (r * 900000))⌋₊ < 1000000 := by
      rw [Nat.floor_lt (le_trans (by norm_num) hlo)]
      exact_mod_cast hhi
    omega


theorem toString_nat_data (n : Nat) : (toString n).data = Nat.toDigits 10 n := rfl

theorem digitChar_isDigit : ∀ d : Nat, d < 10 →
    (Nat.digitChar d).isDigit = true ∧ (d ≠ 0 → Nat.digitChar d ≠ '0') := by
  decide

theorem toDigits_six (n : Nat) (hlo : 100000 ≤ n) (hhi : n ≤ 999999) :
    Nat.toDigits 10 n =
      [Nat.digitChar (n / 100000 % 10), Nat.digitChar (n / 10000 % 10),
        Nat.digitChar (n / 1000 % 10), Nat.digitChar (n / 100 % 10),
        Nat.digitChar (n / 10 % 10), Nat.digitChar (n % 10)] := by
  obtain ⟨f, hf⟩ : ∃ f, n + 1 = f + 6 := ⟨n - 5, by omega⟩
  have h1 : n / 10 ≠ 0 := by omega
  have h2 : n / 10 / 10 ≠ 0 := by omega
  have h3 : n / 10 / 10 / 10 ≠ 0 := by omega
  have h4 : n / 10 / 10 / 10 / 10 ≠ 0 := by omega
  have h5 : n / 10 / 10 / 10 / 10 / 10 ≠ 0 := by omega
  have h6 : n / 10 / 10 / 10 / 10 / 10 / 10 = 0 := by omega
  have e2 : n / 10 / 10 = n / 100 := by omega
  have e3 : n / 10 / 10 / 10 = n / 1000 := by omega
  have e4 : n / 10 / 10 / 10 / 10 = n / 10000 := by omega
  have e5 : n / 10 / 10 / 10 / 10 / 10 = n / 100000 := by omega
  unfold Nat.toDigits
  rw [hf]
  simp only [Nat.toDigitsCore, h1, h2, h3, h4, h5, h6, if_false, if_true]
  rw [e5, e4, e3, e2]

theorem toString_six_digits (n : Nat) (hlo : 100000 ≤ n) (hhi : n ≤ 999999) :
    (toString n).length = 6 ∧ (∀ c ∈ (toString n).data, c.isDigit = true) ∧
      (toString n).data.head? ≠ some '0' := by
  have hd := toDigits_six n hlo hhi
  have hdata := toString_nat_data n
  refine ⟨?_, ?_, ?_⟩
  · show (toString n).data.length = 6
    rw [hdata, hd]
    rfl
  · rw [hdata, hd]
    intro c hc
    simp only [List.mem_cons, List.mem_singleton, List.not_mem_nil, or_false] at hc
    rcases hc with rfl | rfl | rfl | rfl | rfl | rfl <;>
      exact (digitChar_isDigit _ (Nat.mod_lt _ (by norm_num))).1
  · rw [hdata, hd]
    simp only [List.head?_cons, ne_eq, Option.some.injEq]
    exact (digitChar_isDigit _ (Nat.mod_lt _ (by norm_num))).2 (by omega)

/-! ## The random code: the property -/

/-- C17: for every value `r` of `Math.random()`, a binary64 number with
`0 <= r < 1`, the number `Math.floor(100000 + r * 900000)` computed in binary64
arithmetic is an integer between 100000 and 999999 inclusive (as is the floor of
the exact value of `100000 + r * 900000`), and the code `createOtpRecord` makes of
it is its decimal rendering: a string of exactly 6 decimal digits with no leading
zero. -/
theorem C17_code_is_six_digits (r : ℚ) (hd : IsDouble r) (h0 : 0 ≤ r) (h1 : r < 1)
    (st : OtpStore) (email purpose : String) (now : Time) :
    100000 ≤ otpDraw r ∧ otpDraw r ≤ 999999 ∧
    100000 ≤ ⌊(100000 : ℚ) + r * 900000⌋₊ ∧ ⌊(100000 : ℚ) + r * 900000⌋₊ ≤ 999999 ∧
    (createOtpRecord st email purpose now (otpDraw r)).1 = toString (otpDraw r) ∧
    (toString (otpDraw r)).length = 6 ∧
    (∀ c ∈ (toString (otpDraw r)).data, c.isDigit = true) ∧
    (toString (otpDraw r)).data.head? ≠ some '0' := by
  obtain ⟨hlo, hhi⟩ := otpDraw_range r hd h0 h1
  obtain ⟨hlen, hdig, hhead⟩ := toString_six_digits _ hlo hhi
  have hx0 : (100000 : ℚ) ≤ 100000 + r * 900000 := by linarith
  have hx1 : (100000 : ℚ) + r * 900000 < 1000000 := by linarith
  refine ⟨hlo, hhi, Nat.le_floor (by exact_mod_cast hx0), ?_, rfl, hlen, hdig, hhead⟩
  have : ⌊(100000 : ℚ) + r * 900000⌋₊ < 1000000 := by
    rw [Nat.floor_lt (le_trans (by norm_num) hx0)]
    exact_mod_cast hx1
  omega

/-- Witness of C17: the largest binary64 number below 1. -/
theorem C17_code_is_six_digits_witness :
    100000 ≤ otpDraw ((2 ^ 53 - 1 : ℕ) * 2 ^ (-53 : ℤ)) ∧
    otpDraw ((2 ^ 53 - 1 : ℕ) * 2 ^ (-53 : ℤ)) ≤ 999999 :=
  have h := C17_code_is_six_digits ((2 ^ 53 - 1 : ℕ) * 2 ^ (-53 : ℤ))
    ⟨2 ^ 53 - 1, -53, by norm_num, by norm_num, by norm_num, rfl⟩
    (by norm_num) (by norm_num) OtpStore.empty "a@x.com" "login" 0
  ⟨h.1, h.2.1⟩

end Server
